import Mathlib

/-!
Shallow embedding of `mintpy/save_roipac.py` (MintPy's converter from HDF5
products to ROI_PAC rasters) and verification of its specification.

Modelling conventions:
* A Python `dict` of attributes is an ordered association list with string
  keys.  Attribute values (`AVal`) are either the strings read from file or
  the integers that `read_data` stores for the caller's reference pixel.
* A numpy 2-D array is a total function `Nat → Nat → K` over a scalar field
  `K`; numpy floating point arithmetic is idealised as field arithmetic, and
  `np.pi` is passed in as a parameter `piK : K` so that every definition
  stays executable (theorems are proved for every field, witnesses run at
  `K = ℚ`).  Division by zero follows Lean's convention; no claim touches a
  zero wavelength.
* External collaborators (`readfile`, `ptime`, `view`, the date lists of the
  `timeseries`/`HDFEOS` objects) are fields of an environment `Env K` fixed
  for one invocation, as in §6 of the spec.
* Python exceptions are `Except.error` with a message tagged by the Python
  exception class.
-/

set_option linter.unusedSectionVars false

namespace SaveRoipac

/-- A Python attribute value in this program: attributes read from the input
file are strings; `read_data` stores the caller's integer reference
coordinates (`atr['REF_Y'] = inps.ref_yx[0]`). -/
inductive AVal where
  | s (v : String)
  | n (v : Nat)
deriving DecidableEq

/-- Python `str(value)` for the two value shapes that occur. -/
def AVal.str : AVal → String
  | .s v => v
  | .n v => toString v

/-- Decimal digits to a number, most significant first. -/
def digitsToNat : List Char → Nat → Option Nat
  | [], acc => some acc
  | c :: cs, acc =>
      if c.isDigit then digitsToNat cs (acc * 10 + (c.toNat - 48)) else none

/-- Python `int(text)` for the non-negative decimal texts this program
feeds it. -/
def pyToNat? (s : String) : Option Nat :=
  match s.data with
  | [] => none
  | cs => digitsToNat cs 0

/-- Python `int(value)` for the two value shapes that occur (the reference
coordinates used by this program are non-negative). -/
def AVal.toInt? : AVal → Option Nat
  | .s v => pyToNat? v
  | .n v => some v

/-- Python `atr[k]`: the value bound to `k`, scanning in insertion order. -/
def aget? {α : Type} : List (String × α) → String → Option α
  | [], _ => none
  | (k1, v) :: rest, k => if k1 = k then some v else aget? rest k

/-- Python `atr[k] = v`: overwrite in place if the key exists, else append. -/
def aset {α : Type} : List (String × α) → String → α → List (String × α)
  | [], k, v => [(k, v)]
  | (k1, v1) :: rest, k, v =>
      if k1 = k then (k, v) :: rest else (k1, v1) :: aset rest k v

/-- Python `k in atr.keys()`. -/
def amem {α : Type} (a : List (String × α)) (k : String) : Bool :=
  (aget? a k).isSome

/-- Python `atr.pop(k)` (in a `dict` a key occurs at most once). -/
def apop {α : Type} : List (String × α) → String → List (String × α)
  | [], _ => []
  | (k1, v1) :: rest, k => if k1 = k then rest else (k1, v1) :: apop rest k

/-- The attribute mapping threaded through `read_data`. -/
abbrev Attr := List (String × AVal)

/-- The sanitized, all-string attribute mapping produced by
`clean_metadata4roipac`. -/
abbrev SAttr := List (String × String)

/-- Python `str.isupper` for the ASCII keys of this program: at least one
cased character and no lower-case one. -/
def pyIsUpper (s : String) : Bool :=
  s.data.any (fun c => c.isUpper || c.isLower) && !(s.data.any (fun c => c.isLower))

/-- Worker for `pySplit`, scanning the character list left to right with a
fuel argument bounded by the list length (the separator is non-empty, so
the fuel never runs out before the characters do). -/
def pySplitAux (sep : List Char) : Nat → List Char → List Char → List (List Char)
  | _, [], acc => [acc.reverse]
  | 0, cs, acc => [acc.reverse ++ cs]
  | fuel + 1, c :: rest, acc =>
      if sep.isPrefixOf (c :: rest) then
        acc.reverse :: pySplitAux sep fuel (List.drop sep.length (c :: rest)) []
      else pySplitAux sep fuel rest (c :: acc)

/-- Python `s.split(sep)` for a non-empty separator: non-overlapping
left-to-right matches, keeping empty pieces. -/
def pySplit (s sep : String) : List String :=
  if sep.data.isEmpty then [s]
  else (pySplitAux sep.data s.data.length s.data []).map String.mk

/-- Python `pat in s` (substring test), expressed through `split`: a pattern
occurs in `s` exactly when splitting on it yields more than one piece. -/
def strContains (s pat : String) : Bool :=
  (pySplit s pat).length != 1

/-- Python `s.startswith(pre)`. -/
def pyStartsWith (s pre : String) : Bool :=
  pre.data.isPrefixOf s.data

/-- Python `s.lower()` for the ASCII attribute texts of this program. -/
def pyLower (s : String) : String :=
  String.mk (s.data.map Char.toLower)

/-- Python `d[2:8]` on a date string: the 6-digit year-dropped form. -/
def sub6 (d : String) : String :=
  String.mk ((d.data.drop 2).take 6)

/-- Modelled from the spec: `normalize_date` (`mintpy.utils.ptime.yyyymmdd`,
external per §6) — a 6-digit date gets its century restored (`>30 → 19xx`,
else `20xx`), an already 8-digit date is returned unchanged. -/
def yyyymmdd (d : String) : String :=
  if d.length = 6 then
    (if (pyToNat? (String.mk (d.data.take 2))).getD 0 > 30 then "19" ++ d else "20" ++ d)
  else d

/-- Concatenate pieces with a separator between them. -/
def joinSep (sep : String) : List String → String
  | [] => ""
  | [p] => p
  | p :: rest => p ++ sep ++ joinSep sep rest

/-- Python `os.path.splitext(f)[0]` for a file name carrying an extension:
everything before the last dot. -/
def splitextBase (f : String) : String :=
  let parts := pySplit f "."
  if parts.length ≤ 1 then f else joinSep "." parts.dropLast

/-- A raster slice: one 2-D numeric array, as a function of (row, column). -/
abbrev Raster (K : Type) := Nat → Nat → K

/-- The external collaborators of one conversion invocation (§6 of the
spec), fixed for one input file:
* `read ds` is `readfile.read(file, datasetName=ds)[0]` (with `ds = none`
  for a plain `readfile.read(file)`),
* `read_attribute` is `readfile.read_attribute(file)`,
* `float` is Python `float` on attribute text,
* `ts_date_list` / `he_date_list` are `timeseries(file).get_date_list()` and
  `HDFEOS(file).get_date_list()`,
* `slice_list` is `readfile.get_slice_list(file)`,
* `check_dataset_input c s` is `view.check_dataset_input(c, s)[0][0]`. -/
structure Env (K : Type) where
  read : Option String → Raster K
  read_attribute : Attr
  float : String → K
  ts_date_list : List String
  he_date_list : List String
  slice_list : List String
  check_dataset_input : List String → String → String

/-- The parsed command line: `save_roipac.py file [dset] [-o outfile]
[--ref-yx y x]`. -/
structure Inps where
  file : String
  dset : Option String := none
  outfile : Option String := none
  ref_yx : Option (Nat × Nat) := none

/-- Python truthiness of `inps.dset` (`None` and the empty string are
falsy). -/
def dsetFalsy : Option String → Bool
  | none => true
  | some s => s = ""

/-- `cmd_line_parse` (save_roipac.py lines 62-76) restricted to its
default-dataset logic: with no dataset requested, `ifgramStack` and `HDFEOS`
inputs raise, and a `timeseries` input falls back to the last stored date. -/
def cmd_line_parse {K : Type} (env : Env K) (inps : Inps) : Except String Inps :=
  if dsetFalsy inps.dset then
    match aget? env.read_attribute "FILE_TYPE" with
    | none => .error "KeyError: FILE_TYPE"
    | some kv =>
      if kv.str = "ifgramStack" ∨ kv.str = "HDFEOS" then
        .error ("Exception: NO input dataset! Required for " ++ kv.str ++ " file")
      else if kv.str = "timeseries" then
        match env.ts_date_list.getLast? with
        | none => .error "IndexError: list index out of range"
        | some d => .ok { inps with dset := some d }
      else .ok inps
  else .ok inps

/-- The caller reference-pixel override on the attribute mapping
(save_roipac.py lines 84-87): `atr['REF_Y'], atr['REF_X'] = inps.ref_yx`. -/
def refOverride (atr : Attr) : Option (Nat × Nat) → Attr
  | some (y, x) => aset (aset atr "REF_Y" (.n y)) "REF_X" (.n x)
  | none => atr

/-- The optional caller reference-pixel subtraction
(`if inps.ref_yx: data -= data[inps.ref_yx[0], inps.ref_yx[1]]`). -/
def refSub {K : Type} [Sub K] (data : Raster K) : Option (Nat × Nat) → Raster K
  | some (y, x) => fun i j => data i j - data y x
  | none => data

variable {K : Type} [Field K]

/-- The `k == 'velocity'` branch of `read_data` (save_roipac.py lines
92-105). -/
def readDataVelocity (env : Env K) (range2phase : K) (atr : Attr) (inps : Inps) :
    Except String (Raster K × Attr × String) :=
  let data : Raster K := fun i j => env.read none i j * range2phase
  let data := refSub data inps.ref_yx
  let atr := aset atr "FILE_TYPE" (.s ".unw")
  let atr := aset atr "UNIT" (.s "radian")
  let outfile :=
    match inps.outfile with
    | some o => o
    | none => splitextBase inps.file ++ ((aget? atr "FILE_TYPE").map AVal.str).getD ""
  .ok (data, atr, outfile)

/-- The `k == 'timeseries'` branch of `read_data` (save_roipac.py lines
107-135). -/
def readDataTimeseries (env : Env K) (range2phase : K) (atr : Attr) (inps : Inps) :
    Except String (Raster K × Attr × String) :=
  match inps.dset with
  | none => .error "TypeError: dset is None"
  | some dset =>
    let dates : Except String (String × String) :=
      if strContains dset "_" then
        match pySplit dset "_" with
        | [a, b] => .ok (yyyymmdd a, yyyymmdd b)
        | _ => .error "ValueError: cannot unpack"
      else
        match aget? atr "REF_DATE" with
        | none => .error "KeyError: REF_DATE"
        | some d1 => .ok (d1.str, yyyymmdd dset)
    match dates with
    | .error e => .error e
    | .ok (date1, date2) =>
      let data : Raster K := fun i j => env.read (some date2) i j
      let data : Raster K := fun i j => data i j - env.read (some date1) i j
      let data : Raster K := fun i j => data i j * range2phase
      let data := refSub data inps.ref_yx
      let atr := aset atr "DATE" (.s (sub6 date1))
      let atr := aset atr "DATE12" (.s (sub6 date1 ++ "-" ++ sub6 date2))
      let atr := aset atr "FILE_TYPE" (.s ".unw")
      let atr := aset atr "UNIT" (.s "radian")
      let outfile :=
        match inps.outfile with
        | some o => o
        | none =>
          let o := date1 ++ "_" ++ date2 ++ ".unw"
          if pyStartsWith inps.file "geo_" then "geo_" ++ o else o
      .ok (data, atr, outfile)

/-- The `k == 'HDFEOS'` branch of `read_data` (save_roipac.py lines
137-186). -/
def readDataHDFEOS (env : Env K) (range2phase : K) (atr : Attr) (inps : Inps) :
    Except String (Raster K × Attr × String) :=
  match inps.dset with
  | none => .error "TypeError: dset is None"
  | some dset =>
    let dname := (pySplit dset "-").headD ""
    let dates : Except String (String × String) :=
      if dname = "displacement" then
        if strContains dset "-" then
          let suffix := ((pySplit dset "-").drop 1).headD ""
          if strContains suffix "_" then
            match pySplit suffix "_" with
            | [a, b] => .ok (yyyymmdd a, yyyymmdd b)
            | _ => .error "ValueError: cannot unpack"
          else
            match aget? atr "REF_DATE" with
            | none => .error "KeyError: REF_DATE"
            | some d1 => .ok (d1.str, yyyymmdd suffix)
        else .error "ValueError: No - in input dataset! Required for displacement"
      else
        match env.he_date_list with
        | [] => .error "IndexError: list index out of range"
        | d :: ds => .ok (d, ds.getLastD d)
    match dates with
    | .error e => .error e
    | .ok (date1, date2) =>
      let date12 := date1 ++ "_" ++ date2
      let data : Raster K :=
        if strContains dset "displacement" then
          let slice_name1 := env.check_dataset_input env.slice_list (dname ++ "-" ++ date1)
          let slice_name2 := env.check_dataset_input env.slice_list (dname ++ "-" ++ date2)
          let d0 : Raster K := fun i j => env.read (some slice_name1) i j
          let d1 : Raster K := fun i j => d0 i j - env.read (some slice_name2) i j
          let d2 : Raster K := fun i j => d1 i j * range2phase
          refSub d2 inps.ref_yx
        else
          fun i j => env.read (some (env.check_dataset_input env.slice_list dset)) i j
      let atr := aset atr "DATE" (.s (sub6 date1))
      let atr := aset atr "DATE12" (.s (sub6 date1 ++ "-" ++ sub6 date2))
      let atrE : Except String Attr :=
        if dname = "displacement" then
          .ok (aset (aset atr "FILE_TYPE" (.s ".unw")) "UNIT" (.s "radian"))
        else if strContains (pyLower dname) "coherence" then
          .ok (aset (aset atr "FILE_TYPE" (.s ".cor")) "UNIT" (.s "1"))
        else if dname = "height" then
          .ok (aset (aset atr "FILE_TYPE" (.s ".dem")) "DATA_TYPE" (.s "int16"))
        else .error "ValueError: unrecognized input dataset type"
      match atrE with
      | .error e => .error e
      | .ok atr =>
        let outfile :=
          match inps.outfile with
          | some o => o
          | none => date12 ++ ((aget? atr "FILE_TYPE").map AVal.str).getD ""
        .ok (data, atr, outfile)

/-- The `k == 'ifgramStack'` branch of `read_data` (save_roipac.py lines
188-222).  Note the reference-pixel zeroing consults the attribute mapping
as it stands when the branch runs. -/
def readDataIfgramStack (env : Env K) (atr : Attr) (inps : Inps) :
    Except String (Raster K × Attr × String) :=
  match inps.dset with
  | none => .error "AttributeError: dset is None"
  | some dset =>
    match pySplit dset "-" with
    | [dname, date12] =>
      match pySplit date12 "_" with
      | [date1, date2] =>
        let data : Raster K := fun i j => env.read (some dset) i j
        let dataE : Except String (Raster K) :=
          if pyStartsWith dname "unwrapPhase" then
            if amem atr "REF_X" then
              match (aget? atr "REF_Y").bind AVal.toInt?,
                    (aget? atr "REF_X").bind AVal.toInt? with
              | some ry, some rx => .ok (fun i j => data i j - data ry rx)
              | _, _ => .error "ValueError: invalid literal for int"
            else .ok data
          else .ok data
        match dataE with
        | .error e => .error e
        | .ok data =>
          let atr := aset atr "DATE" (.s (sub6 date1))
          let atr := aset atr "DATE12" (.s (sub6 date1 ++ "-" ++ sub6 date2))
          let atrE : Except String Attr :=
            if pyStartsWith dname "unwrapPhase" then
              .ok (aset (aset atr "FILE_TYPE" (.s ".unw")) "UNIT" (.s "radian"))
            else if dname = "coherence" then
              .ok (aset (aset atr "FILE_TYPE" (.s ".cor")) "UNIT" (.s "1"))
            else if dname = "wrapPhase" then
              .ok (aset (aset atr "FILE_TYPE" (.s ".int")) "UNIT" (.s "radian"))
            else .error "ValueError: unrecognized dataset type"
          match atrE with
          | .error e => .error e
          | .ok atr =>
            let outfile :=
              match inps.outfile with
              | some o => o
              | none =>
                let o := date12 ++ ((aget? atr "FILE_TYPE").map AVal.str).getD ""
                if pyStartsWith inps.file "geo_" then "geo_" ++ o else o
            .ok (data, atr, outfile)
      | _ => .error "ValueError: cannot unpack"
    | _ => .error "ValueError: cannot unpack"

/-- The final `else` (generic) branch of `read_data` (save_roipac.py lines
224-250): the slice first read for the caller's token is discarded and the
file re-read without a dataset name in the coherence, mask and geocoded
height cases. -/
def readDataGeneric (env : Env K) (k : String) (atr : Attr) (inps : Inps) :
    Except String (Raster K × Attr × String) :=
  let data : Raster K := fun i j => env.read inps.dset i j
  let step : Raster K × Attr :=
    if strContains (pyLower k) "coherence" then
      (fun i j => env.read none i j, aset atr "FILE_TYPE" (.s ".cor"))
    else if k = "mask" then
      (fun i j => env.read none i j,
        aset (aset atr "FILE_TYPE" (.s ".msk")) "DATA_TYPE" (.s "byte"))
    else if k = "geometry" ∧ inps.dset = some "height" then
      if amem atr "Y_FIRST" then
        (fun i j => env.read none i j,
          aset (aset (aset atr "FILE_TYPE" (.s ".dem")) "DATA_TYPE" (.s "int16"))
            "UNIT" (.s "m"))
      else
        (data, aset (aset atr "FILE_TYPE" (.s ".hgt")) "UNIT" (.s "m"))
    else
      (data, aset atr "FILE_TYPE" (.s ".unw"))
  let data := step.1
  let atr := step.2
  let outfile :=
    match inps.outfile with
    | some o => o
    | none => splitextBase inps.file ++ ((aget? atr "FILE_TYPE").map AVal.str).getD ""
  .ok (data, atr, outfile)

/-- The closing lines of `read_data`: stamp `PROCESSOR = roipac` on the
attribute mapping of a successful branch. -/
def stampProcessor : Except String (Raster K × Attr × String) →
    Except String (Raster K × Attr × String)
  | .error e => .error e
  | .ok (data, atr, outfile) => .ok (data, aset atr "PROCESSOR" (.s "roipac"), outfile)

/-- `read_data` (save_roipac.py lines 78-253): read the attributes, compute
the phase-conversion factor `range2phase = -4π / wavelength`, apply the
caller reference-pixel override to the attribute mapping, dispatch on
`FILE_TYPE`, and stamp `PROCESSOR`.  `piK` models `np.pi` in `K`. -/
def read_data (piK : K) (env : Env K) (inps : Inps) :
    Except String (Raster K × Attr × String) :=
  let atr := env.read_attribute
  match aget? atr "WAVELENGTH" with
  | none => .error "KeyError: WAVELENGTH"
  | some w =>
    let range2phase : K := -4 * piK / env.float w.str
    let atr := refOverride atr inps.ref_yx
    match aget? atr "FILE_TYPE" with
    | none => .error "KeyError: FILE_TYPE"
    | some kv =>
      stampProcessor
        (if kv.str = "velocity" then readDataVelocity env range2phase atr inps
         else if kv.str = "timeseries" then readDataTimeseries env range2phase atr inps
         else if kv.str = "HDFEOS" then readDataHDFEOS env range2phase atr inps
         else if kv.str = "ifgramStack" then readDataIfgramStack env atr inps
         else readDataGeneric env kv.str atr inps)

/-- `clean_metadata4roipac` (save_roipac.py lines 256-276): stringify every
value, drop the five literal geometry keys, drop every key that is not
`isupper`, and bind `FILE_LENGTH` to the value of `LENGTH` (a `KeyError`
when `LENGTH` is absent). -/
def clean_metadata4roipac (atr_in : Attr) : Except String SAttr :=
  let atr : SAttr := atr_in.map (fun kv => (kv.1, kv.2.str))
  let key_list := ["width", "Width", "samples", "length", "lines"]
  let atr := key_list.foldl (fun a key => if amem a key then apop a key else a) atr
  let atr := atr.filter (fun kv => pyIsUpper kv.1)
  match aget? atr "LENGTH" with
  | none => .error "KeyError: LENGTH"
  | some v => .ok (aset atr "FILE_LENGTH" v)

/-- `main` (save_roipac.py lines 280-289) up to the final `writefile.write`:
parse defaults, read and transform, sanitize. -/
def main_core (piK : K) (env : Env K) (inps : Inps) :
    Except String (Raster K × SAttr × String) :=
  match cmd_line_parse env inps with
  | .error e => .error e
  | .ok inps1 =>
    match read_data piK env inps1 with
    | .error e => .error e
    | .ok (data, atr, out_file) =>
      match clean_metadata4roipac atr with
      | .error e => .error e
      | .ok atr1 => .ok (data, atr1, out_file)

/-! Lemmas about the attribute-mapping operations. -/

theorem aget?_aset {α : Type} (a : List (String × α)) (k : String) (v : α) (k2 : String) :
    aget? (aset a k v) k2 = if k = k2 then some v else aget? a k2 := by
  induction a with
  | nil => simp [aset, aget?]
  | cons hd tl ih =>
    obtain ⟨k1, v1⟩ := hd
    by_cases h1 : k1 = k
    · subst h1
      by_cases h2 : k1 = k2 <;> simp [aset, aget?, h2]
    · by_cases h2 : k1 = k2
      · subst h2
        have h3 : ¬ k = k1 := fun h => h1 h.symm
        simp [aset, aget?, h1, h3]
      · simp [aset, aget?, h1, h2, ih]

theorem aget?_aset_self {α : Type} (a : List (String × α)) (k : String) (v : α) :
    aget? (aset a k v) k = some v := by
  simp [aget?_aset]

theorem aget?_aset_ne {α : Type} (a : List (String × α)) (k : String) (v : α)
    (k2 : String) (h : k ≠ k2) :
    aget? (aset a k v) k2 = aget? a k2 := by
  simp [aget?_aset, h]

theorem aget?_apop_ne {α : Type} (a : List (String × α)) (k k2 : String) (h : k ≠ k2) :
    aget? (apop a k) k2 = aget? a k2 := by
  induction a with
  | nil => simp [apop]
  | cons hd tl ih =>
    obtain ⟨k1, v1⟩ := hd
    by_cases h1 : k1 = k
    · subst h1
      simp [apop, aget?, h]
    · by_cases h2 : k1 = k2
      · subst h2
        simp [apop, aget?, h1]
      · simp [apop, aget?, h1, h2, ih]

theorem aget?_filter_key {α : Type} (p : String → Bool) (a : List (String × α))
    (k : String) (hp : p k = true) :
    aget? (a.filter (fun kv => p kv.1)) k = aget? a k := by
  induction a with
  | nil => simp
  | cons hd tl ih =>
    obtain ⟨k1, v1⟩ := hd
    by_cases h1 : k1 = k
    · subst h1
      simp [List.filter, hp, aget?]
    · by_cases h2 : p k1 <;> simp [List.filter, h1, h2, aget?, ih]

theorem aget?_map_val {α β : Type} (f : α → β) (a : List (String × α)) (k : String) :
    aget? (a.map (fun kv => (kv.1, f kv.2))) k = (aget? a k).map f := by
  induction a with
  | nil => simp [aget?]
  | cons hd tl ih =>
    obtain ⟨k1, v1⟩ := hd
    by_cases h1 : k1 = k <;> simp [aget?, h1, ih]

theorem mem_aset {α : Type} {a : List (String × α)} {k : String} {v : α}
    {kv : String × α} (h : kv ∈ aset a k v) : kv = (k, v) ∨ kv ∈ a := by
  induction a with
  | nil => simpa [aset] using h
  | cons hd tl ih =>
    obtain ⟨k1, v1⟩ := hd
    by_cases h1 : k1 = k
    · subst h1
      rcases (by simpa [aset] using h : kv = (k1, v) ∨ kv ∈ tl) with h2 | h2
      · exact Or.inl h2
      · exact Or.inr (List.mem_cons_of_mem _ h2)
    · rcases (by simpa [aset, h1] using h : kv = (k1, v1) ∨ kv ∈ aset tl k v) with h2 | h2
      · exact Or.inr (by simp [h2])
      · rcases ih h2 with h3 | h3
        · exact Or.inl h3
        · exact Or.inr (List.mem_cons_of_mem _ h3)

/-! The caller-override step and attribute equivalence away from the
reference-pixel keys. -/

theorem aget?_refOverride_ne (a : Attr) (r : Option (Nat × Nat)) (key : String)
    (hy : key ≠ "REF_Y") (hx : key ≠ "REF_X") :
    aget? (refOverride a r) key = aget? a key := by
  cases r with
  | none => rfl
  | some p =>
    obtain ⟨y, x⟩ := p
    rw [refOverride, aget?_aset_ne _ _ _ _ (fun h => hx h.symm),
      aget?_aset_ne _ _ _ _ (fun h => hy h.symm)]

/-- Two attribute mappings that agree on every key other than `REF_Y` and
`REF_X`. -/
def atrEquiv (a b : Attr) : Prop :=
  ∀ key : String, key ≠ "REF_Y" → key ≠ "REF_X" → aget? a key = aget? b key

theorem atrEquiv.rfl (a : Attr) : atrEquiv a a := fun _ _ _ => Eq.refl _

theorem atrEquiv_refOverride (a : Attr) (r : Option (Nat × Nat)) :
    atrEquiv (refOverride a r) a :=
  fun key hy hx => aget?_refOverride_ne a r key hy hx

theorem atrEquiv.aset {a b : Attr} (h : atrEquiv a b) (k : String) (v : AVal) :
    atrEquiv (aset a k v) (aset b k v) := by
  intro key hy hx
  rw [aget?_aset, aget?_aset, h key hy hx]

/-! Dispatch lemmas: `read_data` under a known `FILE_TYPE`. -/

theorem stampProcessor_ok {K2 : Type} (d : Raster K2) (a : Attr) (o : String) :
    stampProcessor (.ok (d, a, o)) = .ok (d, aset a "PROCESSOR" (.s "roipac"), o) :=
  Eq.refl _

theorem read_data_dispatch (piK : K) (env : Env K) (inps : Inps) (w kv : AVal)
    (hw : aget? env.read_attribute "WAVELENGTH" = some w)
    (hk : aget? (refOverride env.read_attribute inps.ref_yx) "FILE_TYPE" = some kv) :
    read_data piK env inps =
      stampProcessor
        (if kv.str = "velocity" then
          readDataVelocity env (-4 * piK / env.float w.str)
            (refOverride env.read_attribute inps.ref_yx) inps
         else if kv.str = "timeseries" then
          readDataTimeseries env (-4 * piK / env.float w.str)
            (refOverride env.read_attribute inps.ref_yx) inps
         else if kv.str = "HDFEOS" then
          readDataHDFEOS env (-4 * piK / env.float w.str)
            (refOverride env.read_attribute inps.ref_yx) inps
         else if kv.str = "ifgramStack" then
          readDataIfgramStack env (refOverride env.read_attribute inps.ref_yx) inps
         else
          readDataGeneric env kv.str (refOverride env.read_attribute inps.ref_yx) inps) := by
  simp only [read_data, hw, hk]

theorem read_data_eq_velocity (piK : K) (env : Env K) (inps : Inps) (w : AVal)
    (hw : aget? env.read_attribute "WAVELENGTH" = some w)
    (hk : aget? (refOverride env.read_attribute inps.ref_yx) "FILE_TYPE" =
      some (.s "velocity")) :
    read_data piK env inps =
      stampProcessor (readDataVelocity env (-4 * piK / env.float w.str)
        (refOverride env.read_attribute inps.ref_yx) inps) := by
  rw [read_data_dispatch piK env inps w _ hw hk]
  simp [AVal.str]

theorem read_data_eq_timeseries (piK : K) (env : Env K) (inps : Inps) (w : AVal)
    (hw : aget? env.read_attribute "WAVELENGTH" = some w)
    (hk : aget? (refOverride env.read_attribute inps.ref_yx) "FILE_TYPE" =
      some (.s "timeseries")) :
    read_data piK env inps =
      stampProcessor (readDataTimeseries env (-4 * piK / env.float w.str)
        (refOverride env.read_attribute inps.ref_yx) inps) := by
  rw [read_data_dispatch piK env inps w _ hw hk]
  simp [AVal.str]

theorem read_data_eq_HDFEOS (piK : K) (env : Env K) (inps : Inps) (w : AVal)
    (hw : aget? env.read_attribute "WAVELENGTH" = some w)
    (hk : aget? (refOverride env.read_attribute inps.ref_yx) "FILE_TYPE" =
      some (.s "HDFEOS")) :
    read_data piK env inps =
      stampProcessor (readDataHDFEOS env (-4 * piK / env.float w.str)
        (refOverride env.read_attribute inps.ref_yx) inps) := by
  rw [read_data_dispatch piK env inps w _ hw hk]
  simp [AVal.str]

theorem read_data_eq_ifgramStack (piK : K) (env : Env K) (inps : Inps) (w : AVal)
    (hw : aget? env.read_attribute "WAVELENGTH" = some w)
    (hk : aget? (refOverride env.read_attribute inps.ref_yx) "FILE_TYPE" =
      some (.s "ifgramStack")) :
    read_data piK env inps =
      stampProcessor (readDataIfgramStack env
        (refOverride env.read_attribute inps.ref_yx) inps) := by
  rw [read_data_dispatch piK env inps w _ hw hk]
  simp [AVal.str]

theorem read_data_eq_generic (piK : K) (env : Env K) (inps : Inps) (w : AVal) (k : String)
    (hw : aget? env.read_attribute "WAVELENGTH" = some w)
    (hk : aget? (refOverride env.read_attribute inps.ref_yx) "FILE_TYPE" = some (.s k))
    (h1 : k ≠ "velocity") (h2 : k ≠ "timeseries") (h3 : k ≠ "HDFEOS")
    (h4 : k ≠ "ifgramStack") :
    read_data piK env inps =
      stampProcessor (readDataGeneric env k
        (refOverride env.read_attribute inps.ref_yx) inps) := by
  rw [read_data_dispatch piK env inps w _ hw hk]
  simp [AVal.str, h1, h2, h3, h4]

/-! Characterizations of the dispatcher branches. -/

theorem readDataVelocity_eq (env : Env K) (r2p : K) (atr : Attr) (inps : Inps) :
    readDataVelocity env r2p atr inps =
      .ok (refSub (fun i j => env.read none i j * r2p) inps.ref_yx,
           aset (aset atr "FILE_TYPE" (.s ".unw")) "UNIT" (.s "radian"),
           match inps.outfile with
           | some o => o
           | none => splitextBase inps.file ++ ".unw") := by
  have h1 : aget? (aset (aset atr "FILE_TYPE" (AVal.s ".unw")) "UNIT" (AVal.s "radian"))
      "FILE_TYPE" = some (.s ".unw") := by
    rw [aget?_aset_ne _ _ _ _ (by decide), aget?_aset_self]
  simp only [readDataVelocity, h1]
  rfl

theorem readDataTimeseries_pair (env : Env K) (r2p : K) (atr : Attr) (inps : Inps)
    (dset a b : String)
    (hd : inps.dset = some dset) (hs : pySplit dset "_" = [a, b]) :
    readDataTimeseries env r2p atr inps =
      .ok (refSub (fun i j =>
              (env.read (some (yyyymmdd b)) i j - env.read (some (yyyymmdd a)) i j) * r2p)
            inps.ref_yx,
           aset (aset (aset (aset atr
               "DATE" (.s (sub6 (yyyymmdd a))))
               "DATE12" (.s (sub6 (yyyymmdd a) ++ "-" ++ sub6 (yyyymmdd b))))
               "FILE_TYPE" (.s ".unw"))
               "UNIT" (.s "radian"),
           match inps.outfile with
           | some o => o
           | none =>
             if pyStartsWith inps.file "geo_" then
               "geo_" ++ (yyyymmdd a ++ "_" ++ yyyymmdd b ++ ".unw")
             else yyyymmdd a ++ "_" ++ yyyymmdd b ++ ".unw") := by
  have hc : strContains dset "_" = true := by simp [strContains, hs]
  simp only [readDataTimeseries, hd, hc, hs, if_true]

theorem readDataHDFEOS_disp_pair (env : Env K) (r2p : K) (atr : Attr) (inps : Inps)
    (dset suffix a b : String)
    (hd : inps.dset = some dset)
    (h1 : pySplit dset "-" = ["displacement", suffix])
    (hc : strContains dset "displacement" = true)
    (h2 : pySplit suffix "_" = [a, b]) :
    readDataHDFEOS env r2p atr inps =
      .ok (refSub (fun i j =>
              (env.read (some (env.check_dataset_input env.slice_list
                  ("displacement" ++ "-" ++ yyyymmdd a))) i j
               - env.read (some (env.check_dataset_input env.slice_list
                  ("displacement" ++ "-" ++ yyyymmdd b))) i j) * r2p)
            inps.ref_yx,
           aset (aset (aset (aset atr
               "DATE" (.s (sub6 (yyyymmdd a))))
               "DATE12" (.s (sub6 (yyyymmdd a) ++ "-" ++ sub6 (yyyymmdd b))))
               "FILE_TYPE" (.s ".unw"))
               "UNIT" (.s "radian"),
           match inps.outfile with
           | some o => o
           | none => yyyymmdd a ++ "_" ++ yyyymmdd b ++ ".unw") := by
  have hsep : strContains dset "-" = true := by simp [strContains, h1]
  have hsuf : strContains suffix "_" = true := by simp [strContains, h2]
  have hft : aget? (aset (aset (aset (aset atr
      "DATE" (AVal.s (sub6 (yyyymmdd a))))
      "DATE12" (AVal.s (sub6 (yyyymmdd a) ++ "-" ++ sub6 (yyyymmdd b))))
      "FILE_TYPE" (AVal.s ".unw"))
      "UNIT" (AVal.s "radian")) "FILE_TYPE" = some (.s ".unw") := by
    rw [aget?_aset_ne _ _ _ _ (by decide), aget?_aset_self]
  simp only [readDataHDFEOS, hd, h1, hsep, hsuf, h2, hc, hft, if_true, List.headD,
    List.drop, List.head!]
  rfl

theorem readDataIfgramStack_unwrap (env : Env K) (atr : Attr) (inps : Inps)
    (dset dname d12 d1 d2 : String) (ry rx : Nat)
    (hd : inps.dset = some dset)
    (h1 : pySplit dset "-" = [dname, d12])
    (h2 : pySplit d12 "_" = [d1, d2])
    (hu : pyStartsWith dname "unwrapPhase" = true)
    (hy : (aget? atr "REF_Y").bind AVal.toInt? = some ry)
    (hx : (aget? atr "REF_X").bind AVal.toInt? = some rx) :
    readDataIfgramStack env atr inps =
      .ok (fun i j => env.read (some dset) i j - env.read (some dset) ry rx,
           aset (aset (aset (aset atr
               "DATE" (.s (sub6 d1)))
               "DATE12" (.s (sub6 d1 ++ "-" ++ sub6 d2)))
               "FILE_TYPE" (.s ".unw"))
               "UNIT" (.s "radian"),
           match inps.outfile with
           | some o => o
           | none =>
             if pyStartsWith inps.file "geo_" then "geo_" ++ (d12 ++ ".unw")
             else d12 ++ ".unw") := by
  have hmem : amem atr "REF_X" = true := by
    rcases h : aget? atr "REF_X" with _ | v
    · rw [h] at hx
      simp at hx
    · simp [amem, h]
  have hft : aget? (aset (aset (aset (aset atr
      "DATE" (AVal.s (sub6 d1)))
      "DATE12" (AVal.s (sub6 d1 ++ "-" ++ sub6 d2)))
      "FILE_TYPE" (AVal.s ".unw"))
      "UNIT" (AVal.s "radian")) "FILE_TYPE" = some (.s ".unw") := by
    rw [aget?_aset_ne _ _ _ _ (by decide), aget?_aset_self]
  simp only [readDataIfgramStack, hd, h1, h2, hu, hmem, hy, hx, hft, if_true]
  rfl

theorem readDataIfgramStack_unwrap_noref (env : Env K) (atr : Attr) (inps : Inps)
    (dset dname d12 d1 d2 : String)
    (hd : inps.dset = some dset)
    (h1 : pySplit dset "-" = [dname, d12])
    (h2 : pySplit d12 "_" = [d1, d2])
    (hu : pyStartsWith dname "unwrapPhase" = true)
    (hx : aget? atr "REF_X" = none) :
    readDataIfgramStack env atr inps =
      .ok (fun i j => env.read (some dset) i j,
           aset (aset (aset (aset atr
               "DATE" (.s (sub6 d1)))
               "DATE12" (.s (sub6 d1 ++ "-" ++ sub6 d2)))
               "FILE_TYPE" (.s ".unw"))
               "UNIT" (.s "radian"),
           match inps.outfile with
           | some o => o
           | none =>
             if pyStartsWith inps.file "geo_" then "geo_" ++ (d12 ++ ".unw")
             else d12 ++ ".unw") := by
  have hmem : amem atr "REF_X" = false := by simp [amem, hx]
  have hft : aget? (aset (aset (aset (aset atr
      "DATE" (AVal.s (sub6 d1)))
      "DATE12" (AVal.s (sub6 d1 ++ "-" ++ sub6 d2)))
      "FILE_TYPE" (AVal.s ".unw"))
      "UNIT" (AVal.s "radian")) "FILE_TYPE" = some (.s ".unw") := by
    rw [aget?_aset_ne _ _ _ _ (by decide), aget?_aset_self]
  simp only [readDataIfgramStack, hd, h1, h2, hu, hmem, hft, if_true, Bool.false_eq_true,
    if_false]
  rfl

theorem readDataGeneric_coherence (env : Env K) (k : String) (atr : Attr) (inps : Inps)
    (hc : strContains (pyLower k) "coherence" = true) :
    readDataGeneric env k atr inps =
      .ok (fun i j => env.read none i j,
           aset atr "FILE_TYPE" (.s ".cor"),
           match inps.outfile with
           | some o => o
           | none => splitextBase inps.file ++ ".cor") := by
  simp [readDataGeneric, hc, aget?_aset_self]
  rfl

theorem readDataGeneric_mask (env : Env K) (atr : Attr) (inps : Inps) :
    readDataGeneric env "mask" atr inps =
      .ok (fun i j => env.read none i j,
           aset (aset atr "FILE_TYPE" (.s ".msk")) "DATA_TYPE" (.s "byte"),
           match inps.outfile with
           | some o => o
           | none => splitextBase inps.file ++ ".msk") := by
  have hft : aget? (aset (aset atr "FILE_TYPE" (AVal.s ".msk")) "DATA_TYPE"
      (AVal.s "byte")) "FILE_TYPE" = some (.s ".msk") := by
    rw [aget?_aset_ne _ _ _ _ (by decide), aget?_aset_self]
  have hc : strContains (pyLower "mask") "coherence" = false := by decide
  simp [readDataGeneric, hc, hft]
  rfl

theorem readDataGeneric_height_geocoded (env : Env K) (k : String) (atr : Attr)
    (inps : Inps)
    (hk : k = "geometry") (hd : inps.dset = some "height")
    (hy : amem atr "Y_FIRST" = true) :
    readDataGeneric env k atr inps =
      .ok (fun i j => env.read none i j,
           aset (aset (aset atr "FILE_TYPE" (.s ".dem")) "DATA_TYPE" (.s "int16"))
             "UNIT" (.s "m"),
           match inps.outfile with
           | some o => o
           | none => splitextBase inps.file ++ ".dem") := by
  subst hk
  have hft : aget? (aset (aset (aset atr "FILE_TYPE" (AVal.s ".dem")) "DATA_TYPE"
      (AVal.s "int16")) "UNIT" (AVal.s "m")) "FILE_TYPE" = some (.s ".dem") := by
    rw [aget?_aset_ne _ _ _ _ (by decide), aget?_aset_ne _ _ _ _ (by decide),
      aget?_aset_self]
  have hc : strContains (pyLower "geometry") "coherence" = false := by decide
  simp [readDataGeneric, hc, hd, hy, hft]
  rfl

theorem readDataHDFEOS_nondisp_date12 (env : Env K) (r2p : K) (atr : Attr) (inps : Inps)
    (dset d : String) (ds : List String)
    (hd : inps.dset = some dset)
    (hn : ¬ (pySplit dset "-").headD "" = "displacement")
    (hlist : env.he_date_list = d :: ds)
    (data : Raster K) (atrO : Attr) (out : String)
    (hok : readDataHDFEOS env r2p atr inps = .ok (data, atrO, out)) :
    aget? atrO "DATE12" = some (.s (sub6 d ++ "-" ++ sub6 (ds.getLastD d))) := by
  rw [readDataHDFEOS, hd] at hok
  simp only [hn, if_false, hlist] at hok
  split at hok
  · exact absurd hok (by simp)
  · rename_i atrX heq
    simp only [Except.ok.injEq, Prod.mk.injEq] at hok
    obtain ⟨-, h2, -⟩ := hok
    subst h2
    split at heq
    · injection heq with h
      subst h
      rw [aget?_aset_ne _ _ _ _ (by decide), aget?_aset_ne _ _ _ _ (by decide),
        aget?_aset_self]
    · split at heq
      · injection heq with h
        subst h
        rw [aget?_aset_ne _ _ _ _ (by decide), aget?_aset_ne _ _ _ _ (by decide),
          aget?_aset_self]
      · cases heq

/-! Frame relation for the caller reference-pixel override: the branches
that never consult the reference pixel produce the same raster and
filename, and attribute mappings that agree away from `REF_Y`/`REF_X`. -/

def resultFrame : Except String (Raster K × Attr × String) →
    Except String (Raster K × Attr × String) → Prop
  | .error e, .error e2 => e = e2
  | .ok (d, a, o), .ok (d2, a2, o2) => d = d2 ∧ atrEquiv a a2 ∧ o = o2
  | _, _ => False

theorem readDataGeneric_frame (env : Env K) (k : String) (atr1 atr2 : Attr)
    (inps : Inps) (r : Option (Nat × Nat))
    (ha : atrEquiv atr1 atr2) :
    resultFrame (readDataGeneric env k atr1 inps)
      (readDataGeneric env k atr2 { inps with ref_yx := r }) := by
  obtain ⟨f, d0, o0, r0⟩ := inps
  have hy : amem atr1 "Y_FIRST" = amem atr2 "Y_FIRST" := by
    unfold amem
    rw [ha "Y_FIRST" (by decide) (by decide)]
  have hft : ∀ v : AVal, aget? (aset atr1 "FILE_TYPE" v) "FILE_TYPE" =
      aget? (aset atr2 "FILE_TYPE" v) "FILE_TYPE" := fun v =>
    (ha.aset "FILE_TYPE" v) "FILE_TYPE" (by decide) (by decide)
  simp only [readDataGeneric, hy]
  split_ifs with h1 h2 h3 h4
  · refine ⟨rfl, ?_, ?_⟩
    · exact (ha.aset _ _)
    · cases o0 with
      | some o => rfl
      | none => simp [hft]
  · refine ⟨rfl, ?_, ?_⟩
    · exact ((ha.aset _ _).aset _ _)
    · cases o0 with
      | some o => rfl
      | none =>
        have h5 := ((ha.aset "FILE_TYPE" (.s ".msk")).aset "DATA_TYPE" (.s "byte"))
          "FILE_TYPE" (by decide) (by decide)
        simp [h5]
  · refine ⟨rfl, ?_, ?_⟩
    · exact (((ha.aset _ _).aset _ _).aset _ _)
    · cases o0 with
      | some o => rfl
      | none =>
        have h5 := (((ha.aset "FILE_TYPE" (.s ".dem")).aset "DATA_TYPE" (.s "int16")).aset
          "UNIT" (.s "m")) "FILE_TYPE" (by decide) (by decide)
        simp [h5]
  · refine ⟨rfl, ?_, ?_⟩
    · exact ((ha.aset _ _).aset _ _)
    · cases o0 with
      | some o => rfl
      | none =>
        have h5 := ((ha.aset "FILE_TYPE" (.s ".hgt")).aset "UNIT" (.s "m"))
          "FILE_TYPE" (by decide) (by decide)
        simp [h5]
  · refine ⟨rfl, ?_, ?_⟩
    · exact (ha.aset _ _)
    · cases o0 with
      | some o => rfl
      | none => simp [hft]

theorem readDataIfgramStack_frame (env : Env K) (atr1 atr2 : Attr) (inps : Inps)
    (r : Option (Nat × Nat)) (dset dname d12 : String)
    (ha : atrEquiv atr1 atr2)
    (hd : inps.dset = some dset)
    (hsplit : pySplit dset "-" = [dname, d12])
    (hnu : pyStartsWith dname "unwrapPhase" = false) :
    resultFrame (readDataIfgramStack env atr1 inps)
      (readDataIfgramStack env atr2 { inps with ref_yx := r }) := by
  obtain ⟨f, d0, o0, r0⟩ := inps
  simp only at hd
  subst hd
  simp only [readDataIfgramStack, hsplit, hnu, Bool.false_eq_true, if_false]
  split
  · rename_i d1 d2 heq
    by_cases h1 : dname = "coherence"
    · rw [if_pos h1, if_pos h1]
      have h5 := ((((ha.aset "DATE" (.s (sub6 d1))).aset
        "DATE12" (.s (sub6 d1 ++ "-" ++ sub6 d2))).aset
        "FILE_TYPE" (.s ".cor")).aset "UNIT" (.s "1"))
        "FILE_TYPE" (by decide) (by decide)
      exact ⟨rfl, (((ha.aset _ _).aset _ _).aset _ _).aset _ _, by rw [h5]⟩
    · rw [if_neg h1, if_neg h1]
      by_cases h2 : dname = "wrapPhase"
      · rw [if_pos h2, if_pos h2]
        have h5 := ((((ha.aset "DATE" (.s (sub6 d1))).aset
          "DATE12" (.s (sub6 d1 ++ "-" ++ sub6 d2))).aset
          "FILE_TYPE" (.s ".int")).aset "UNIT" (.s "radian"))
          "FILE_TYPE" (by decide) (by decide)
        exact ⟨rfl, (((ha.aset _ _).aset _ _).aset _ _).aset _ _, by rw [h5]⟩
      · rw [if_neg h2, if_neg h2]
        exact rfl
  · exact rfl

theorem readDataHDFEOS_frame (env : Env K) (r2p : K) (atr1 atr2 : Attr) (inps : Inps)
    (r : Option (Nat × Nat)) (dset : String)
    (ha : atrEquiv atr1 atr2)
    (hd : inps.dset = some dset)
    (hnd : strContains dset "displacement" = false) :
    resultFrame (readDataHDFEOS env r2p atr1 inps)
      (readDataHDFEOS env r2p atr2 { inps with ref_yx := r }) := by
  obtain ⟨f, d0, o0, r0⟩ := inps
  simp only at hd
  subst hd
  have hrd : aget? atr1 "REF_DATE" = aget? atr2 "REF_DATE" :=
    ha "REF_DATE" (by decide) (by decide)
  simp only [readDataHDFEOS, hnd, Bool.false_eq_true, if_false, hrd]
  split
  · exact rfl
  · rename_i dates d1 d2 heq
    by_cases h1 : (pySplit dset "-").headD "" = "displacement"
    · rw [if_pos h1, if_pos h1]
      have h5 := ((((ha.aset "DATE" (.s (sub6 d1))).aset
        "DATE12" (.s (sub6 d1 ++ "-" ++ sub6 d2))).aset
        "FILE_TYPE" (.s ".unw")).aset "UNIT" (.s "radian"))
        "FILE_TYPE" (by decide) (by decide)
      exact ⟨rfl, (((ha.aset _ _).aset _ _).aset _ _).aset _ _, by rw [h5]⟩
    · rw [if_neg h1, if_neg h1]
      by_cases h2 : strContains (pyLower ((pySplit dset "-").headD "")) "coherence" = true
      · rw [if_pos h2, if_pos h2]
        have h5 := ((((ha.aset "DATE" (.s (sub6 d1))).aset
          "DATE12" (.s (sub6 d1 ++ "-" ++ sub6 d2))).aset
          "FILE_TYPE" (.s ".cor")).aset "UNIT" (.s "1"))
          "FILE_TYPE" (by decide) (by decide)
        exact ⟨rfl, (((ha.aset _ _).aset _ _).aset _ _).aset _ _, by rw [h5]⟩
      · rw [if_neg h2, if_neg h2]
        by_cases h3 : (pySplit dset "-").headD "" = "height"
        · rw [if_pos h3, if_pos h3]
          have h5 := ((((ha.aset "DATE" (.s (sub6 d1))).aset
            "DATE12" (.s (sub6 d1 ++ "-" ++ sub6 d2))).aset
            "FILE_TYPE" (.s ".dem")).aset "DATA_TYPE" (.s "int16"))
            "FILE_TYPE" (by decide) (by decide)
          exact ⟨rfl, (((ha.aset _ _).aset _ _).aset _ _).aset _ _, by rw [h5]⟩
        · rw [if_neg h3, if_neg h3]
          exact rfl

/-! Sanitizer lemmas. -/

theorem aget?_popFold {α : Type} (keys : List String) (a : List (String × α))
    (k : String) (hk : k ∉ keys) :
    aget? (keys.foldl (fun a key => if amem a key then apop a key else a) a) k =
      aget? a k := by
  induction keys generalizing a with
  | nil => rfl
  | cons key rest ih =>
    have hk1 : ¬ key = k := fun h => hk (by simp [h])
    have hk2 : k ∉ rest := fun h => hk (List.mem_cons_of_mem _ h)
    simp only [List.foldl]
    rw [ih _ hk2]
    by_cases hm : amem a key
    · rw [if_pos hm, aget?_apop_ne _ _ _ hk1]
    · rw [if_neg hm]

theorem clean_metadata4roipac_LENGTH (atr_in : Attr) :
    aget? (List.filter (fun kv => pyIsUpper kv.1)
        (["width", "Width", "samples", "length", "lines"].foldl
          (fun a key => if amem a key then apop a key else a)
          (atr_in.map (fun kv => (kv.1, kv.2.str))))) "LENGTH" =
      (aget? atr_in "LENGTH").map AVal.str := by
  rw [aget?_filter_key _ _ _ (by decide), aget?_popFold _ _ _ (by decide),
    aget?_map_val]

/-- C3 (amended): the sanitizer output has no key containing a lower-case
character — in particular none of the literal keys `width`, `Width`,
`samples`, `length`, `lines` survives — but an all-upper-case spelling of a
geometry key (such as `WIDTH`, or `LENGTH` itself) is not removed. -/
theorem C3_sanitizer_keys (atr_in : Attr) (out : SAttr)
    (hok : clean_metadata4roipac atr_in = .ok out) :
    ∀ kv ∈ out, ∀ c ∈ kv.1.data, ¬ c.isLower := by
  rw [clean_metadata4roipac] at hok
  split at hok
  · cases hok
  · rename_i v heq
    injection hok with h
    subst h
    intro kv hkv c hc
    rcases mem_aset hkv with h1 | h1
    · rw [h1] at hc
      have hfl : ∀ c2 ∈ "FILE_LENGTH".data, ¬ c2.isLower := by decide
      exact hfl c hc
    · have h2 := (List.mem_filter.mp h1).2
      have h3 : ¬ (kv.1.data.any (fun c => c.isLower)) = true := by
        intro hany
        rw [pyIsUpper, hany] at h2
        simp at h2
      rw [List.any_eq_true] at h3
      push_neg at h3
      have h4 := h3 c hc
      simpa using h4

/-- C3 counterexample: the claim says the keys `width`, `samples`, `length`
and `lines` are removed in any capitalization, but the all-upper-case
spelling `WIDTH` survives the sanitizer (only the literal spellings
`width`/`Width` are dropped), as does `LENGTH` itself. -/
theorem C3_uppercase_width_counterexample :
    clean_metadata4roipac [("WIDTH", .s "10"), ("LENGTH", .s "5")] =
      .ok [("WIDTH", "10"), ("LENGTH", "5"), ("FILE_LENGTH", "5")] ∧
    ("WIDTH", "10") ∈ [("WIDTH", "10"), ("LENGTH", "5"), ("FILE_LENGTH", "5")] ∧
    pyLower "WIDTH" = "width" ∧ pyLower "LENGTH" = "length" := by
  refine ⟨by rfl, by decide, by rfl, by rfl⟩

/-- C3 witness: a concrete mixed-case input whose sanitized output carries
no lower-case key. -/
theorem C3_sanitizer_keys_witness :
    ([("LENGTH", "5"), ("FILE_LENGTH", "5")] : SAttr).all
      (fun kv => kv.1.data.all (fun c => !c.isLower)) = true := by
  have h := C3_sanitizer_keys
    [("mixedCase", .s "x"), ("width", .s "9"), ("LENGTH", .s "5")]
    [("LENGTH", "5"), ("FILE_LENGTH", "5")] (by rfl)
  rw [List.all_eq_true]
  intro kv hkv
  rw [List.all_eq_true]
  intro c hc
  simpa using h kv hkv c hc

/-- C5: the sanitizer always binds `FILE_LENGTH` to the value of the
original `LENGTH` attribute, and raises a `KeyError` when `LENGTH` is
absent from the input mapping. -/
theorem C5_file_length_rename :
    (∀ (atr_in : Attr) (v : String) (out : SAttr),
        aget? atr_in "LENGTH" = some (.s v) →
        clean_metadata4roipac atr_in = .ok out →
        aget? out "FILE_LENGTH" = some v) ∧
    (∀ atr_in : Attr, aget? atr_in "LENGTH" = none →
        clean_metadata4roipac atr_in = .error "KeyError: LENGTH") := by
  constructor
  · intro atr_in v out hlen hok
    rw [clean_metadata4roipac] at hok
    split at hok
    · cases hok
    · rename_i vv heq
      rw [clean_metadata4roipac_LENGTH, hlen] at heq
      injection hok with h
      subst h
      injection heq with h2
      rw [aget?_aset_self, ← h2]
      rfl
  · intro atr_in hlen
    rw [clean_metadata4roipac]
    split
    · rfl
    · rename_i vv heq
      rw [clean_metadata4roipac_LENGTH, hlen] at heq
      cases heq

/-- C5 witness: `LENGTH = 42` is copied into `FILE_LENGTH`, and an input
without `LENGTH` raises. -/
theorem C5_file_length_rename_witness :
    aget? [("LENGTH", "42"), ("FILE_LENGTH", "42")] "FILE_LENGTH" = some "42" ∧
    clean_metadata4roipac [("WIDTH", .s "3")] = .error "KeyError: LENGTH" :=
  ⟨C5_file_length_rename.1 [("LENGTH", .s "42")] "42"
      [("LENGTH", "42"), ("FILE_LENGTH", "42")] (by rfl) (by rfl),
    C5_file_length_rename.2 [("WIDTH", .s "3")] (by rfl)⟩

/-! Claim C1: order of the epoch differencing. -/

/-- C1 (amended): epoch differencing multiplies by
`range2phase = -4·π/wavelength` in both differencing branches, but the order
differs — the timeseries branch returns `raster(epoch2) − raster(epoch1)`
scaled, while the multi-slice (HDFEOS) displacement branch returns
`raster(epoch1) − raster(epoch2)` scaled (reference subtraction off). -/
theorem C1_epoch_differencing_order {K : Type} [Field K] :
    (∀ (piK : K) (env : Env K) (inps : Inps) (w : AVal) (dset a b : String)
        (data : Raster K) (atrO : Attr) (out : String),
        aget? env.read_attribute "WAVELENGTH" = some w →
        aget? env.read_attribute "FILE_TYPE" = some (.s "timeseries") →
        inps.dset = some dset →
        pySplit dset "_" = [a, b] →
        inps.ref_yx = none →
        read_data piK env inps = .ok (data, atrO, out) →
        ∀ i j, data i j =
          (env.read (some (yyyymmdd b)) i j - env.read (some (yyyymmdd a)) i j) *
            (-4 * piK / env.float w.str)) ∧
    (∀ (piK : K) (env : Env K) (inps : Inps) (w : AVal) (dset sfx a b : String)
        (data : Raster K) (atrO : Attr) (out : String),
        aget? env.read_attribute "WAVELENGTH" = some w →
        aget? env.read_attribute "FILE_TYPE" = some (.s "HDFEOS") →
        inps.dset = some dset →
        pySplit dset "-" = ["displacement", sfx] →
        strContains dset "displacement" = true →
        pySplit sfx "_" = [a, b] →
        inps.ref_yx = none →
        read_data piK env inps = .ok (data, atrO, out) →
        ∀ i j, data i j =
          (env.read (some (env.check_dataset_input env.slice_list
              ("displacement" ++ "-" ++ yyyymmdd a))) i j -
           env.read (some (env.check_dataset_input env.slice_list
              ("displacement" ++ "-" ++ yyyymmdd b))) i j) *
            (-4 * piK / env.float w.str)) := by
  constructor
  · intro piK env inps w dset a b data atrO out hw hk hd hs href hok
    have hk2 : aget? (refOverride env.read_attribute inps.ref_yx) "FILE_TYPE" =
        some (.s "timeseries") := by
      rw [href]
      exact hk
    rw [read_data_eq_timeseries piK env inps w hw hk2,
      readDataTimeseries_pair env _ _ inps dset a b hd hs, stampProcessor_ok] at hok
    simp only [Except.ok.injEq, Prod.mk.injEq] at hok
    obtain ⟨h1, -, -⟩ := hok
    subst h1
    intro i j
    rw [href]
    rfl
  · intro piK env inps w dset sfx a b data atrO out hw hk hd hs hc hs2 href hok
    have hk2 : aget? (refOverride env.read_attribute inps.ref_yx) "FILE_TYPE" =
        some (.s "HDFEOS") := by
      rw [href]
      exact hk
    rw [read_data_eq_HDFEOS piK env inps w hw hk2,
      readDataHDFEOS_disp_pair env _ _ inps dset sfx a b hd hs hc hs2,
      stampProcessor_ok] at hok
    simp only [Except.ok.injEq, Prod.mk.injEq] at hok
    obtain ⟨h1, -, -⟩ := hok
    subst h1
    intro i j
    rw [href]
    rfl

/-- Concrete HDFEOS container for the C1 counterexample: the slice at the
first epoch holds 1, the slice at the second epoch holds 0, and the
wavelength text parses to 1. -/
def C1cEnv : Env ℚ where
  read := fun ds _ _ => if ds = some "displacement-20100101" then 1 else 0
  read_attribute := [("WAVELENGTH", .s "1"), ("FILE_TYPE", .s "HDFEOS")]
  float := fun _ => 1
  ts_date_list := []
  he_date_list := []
  slice_list := []
  check_dataset_input := fun _ s => s

/-- The C1 counterexample request: `displacement-20100101_20100202`. -/
def C1cInps : Inps :=
  { file := "S1.he5", dset := some "displacement-20100101_20100202" }

/-- C1 counterexample: on the multi-slice displacement request the code
returns `(raster(epoch1) − raster(epoch2))·k = -4`, whereas the claimed
`(raster(epoch2) − raster(epoch1))·k` is `4`. -/
theorem C1_claimed_order_counterexample :
    (read_data (1 : ℚ) C1cEnv C1cInps).map (fun r => r.1 0 0) = .ok (-4) ∧
    (C1cEnv.read (some "displacement-20100202") 0 0 -
        C1cEnv.read (some "displacement-20100101") 0 0) *
      (-4 * 1 / C1cEnv.float "1") = 4 ∧
    (-4 : ℚ) ≠ 4 := by
  refine ⟨?_, ?_, by norm_num⟩
  · rw [read_data_eq_HDFEOS 1 C1cEnv C1cInps (.s "1") (by rfl) (by rfl),
      readDataHDFEOS_disp_pair C1cEnv _ _ C1cInps "displacement-20100101_20100202"
        "20100101_20100202" "20100101" "20100202" rfl (by decide) (by decide) (by decide),
      stampProcessor_ok]
    simp only [Except.map]
    congr 1
    show ((1 : ℚ) - 0) * (-4 * 1 / 1) = -4
    norm_num
  · show ((0 : ℚ) - 1) * (-4 * 1 / 1) = 4
    norm_num

/-- Concrete timeseries container for the C1 witness. -/
def C1wEnv : Env ℚ where
  read := fun ds _ _ => if ds = some "20050601" then 2 else 1
  read_attribute := [("WAVELENGTH", .s "0.0562"), ("FILE_TYPE", .s "timeseries")]
  float := fun _ => 1
  ts_date_list := []
  he_date_list := []
  slice_list := []
  check_dataset_input := fun _ s => s

/-- The C1 witness request: `20040101_20050601`. -/
def C1wInps : Inps := { file := "timeseries.h5", dset := some "20040101_20050601" }

/-- C1 witness: the timeseries pair request at a concrete container. -/
theorem C1_epoch_differencing_order_witness :
    (read_data (1 : ℚ) C1wEnv C1wInps).map (fun r => r.1 0 0) =
      .ok ((C1wEnv.read (some "20050601") 0 0 - C1wEnv.read (some "20040101") 0 0) *
        (-4 * 1 / C1wEnv.float "0.0562")) := by
  rcases h : read_data (1 : ℚ) C1wEnv C1wInps with e | ⟨d, a, o⟩
  · have hok : (read_data (1 : ℚ) C1wEnv C1wInps).isOk = true := by rfl
    rw [h] at hok
    simp [Except.isOk, Except.toBool] at hok
  · have h1 := C1_epoch_differencing_order.1 1 C1wEnv C1wInps (.s "0.0562")
      "20040101_20050601" "20040101" "20050601" d a o rfl rfl rfl (by decide) rfl h
    show Except.ok (d 0 0) = _
    rw [h1 0 0]
    rfl

/-! Claim C6: velocity conversion. -/

/-- C6: a velocity product is converted by multiplying the input raster by
`range2phase = -4·π/wavelength` (a synthetic one-year-baseline phase, no
epoch pair), optionally followed by caller reference-pixel subtraction, and
the output metadata carries the `.unw` file-type tag and `UNIT = radian`. -/
theorem C6_velocity_phase_conversion {K : Type} [Field K] (piK : K) (env : Env K)
    (inps : Inps) (w : AVal)
    (hw : aget? env.read_attribute "WAVELENGTH" = some w)
    (hk : aget? env.read_attribute "FILE_TYPE" = some (.s "velocity"))
    (data : Raster K) (atrO : Attr) (out : String)
    (hok : read_data piK env inps = .ok (data, atrO, out)) :
    data = refSub (fun i j => env.read none i j * (-4 * piK / env.float w.str))
        inps.ref_yx ∧
    aget? atrO "FILE_TYPE" = some (.s ".unw") ∧
    aget? atrO "UNIT" = some (.s "radian") := by
  have hk2 : aget? (refOverride env.read_attribute inps.ref_yx) "FILE_TYPE" =
      some (.s "velocity") := by
    rw [aget?_refOverride_ne _ _ _ (by decide) (by decide)]
    exact hk
  rw [read_data_eq_velocity piK env inps w hw hk2, readDataVelocity_eq,
    stampProcessor_ok] at hok
  simp only [Except.ok.injEq, Prod.mk.injEq] at hok
  obtain ⟨h1, h2, -⟩ := hok
  subst h1
  subst h2
  refine ⟨rfl, ?_, ?_⟩
  · rw [aget?_aset_ne _ _ _ _ (by decide), aget?_aset_ne _ _ _ _ (by decide),
      aget?_aset_self]
  · rw [aget?_aset_ne _ _ _ _ (by decide), aget?_aset_self]

/-- Concrete velocity container for the C6 witness: constant rate 1/100
(0.01 m/yr), wavelength text parsing to 562/10000 (0.0562 m). -/
def C6wEnv : Env ℚ where
  read := fun _ _ _ => 1/100
  read_attribute := [("WAVELENGTH", .s "0.0562"), ("FILE_TYPE", .s "velocity")]
  float := fun _ => 562/10000
  ts_date_list := []
  he_date_list := []
  slice_list := []
  check_dataset_input := fun _ s => s

/-- The C6 witness request: no dataset, no reference override. -/
def C6wInps : Inps := { file := "velocity.h5" }

/-- C6 witness: at wavelength 0.0562 and constant input 0.01 the output is
the constant `0.01·k` with `k = -4·π/0.0562` (π instantiated at a rational
stand-in), with `.unw` and `radian` metadata. -/
theorem C6_velocity_phase_conversion_witness :
    (read_data (314159/100000 : ℚ) C6wEnv C6wInps).map
        (fun r => (r.1 0 0, aget? r.2.1 "FILE_TYPE", aget? r.2.1 "UNIT")) =
      .ok ((1/100 : ℚ) * (-4 * (314159/100000) / (562/10000)),
           some (.s ".unw"), some (.s "radian")) := by
  rcases h : read_data (314159/100000 : ℚ) C6wEnv C6wInps with e | ⟨d, a, o⟩
  · have hok : (read_data (314159/100000 : ℚ) C6wEnv C6wInps).isOk = true := by rfl
    rw [h] at hok
    simp [Except.isOk, Except.toBool] at hok
  · obtain ⟨h1, h2, h3⟩ := C6_velocity_phase_conversion (314159/100000 : ℚ) C6wEnv
      C6wInps (.s "0.0562") rfl rfl d a o h
    show Except.ok (d 0 0, aget? a "FILE_TYPE", aget? a "UNIT") = _
    rw [h2, h3, show d 0 0 = (1/100 : ℚ) * (-4 * (314159/100000) / (562/10000)) by
      rw [h1]
      rfl]

/-! Claim C7: antisymmetry of the epoch differencing. -/

/-- C7: swapping the two epochs of a differencing request negates the
raster (before any reference subtraction), in the timeseries branch and in
the multi-slice displacement branch alike. -/
theorem C7_differencing_antisymmetry {K : Type} [Field K] :
    (∀ (piK : K) (env : Env K) (inps inps2 : Inps) (w : AVal) (dset dset2 a b : String)
        (data data2 : Raster K) (x1 x2 : Attr) (y1 y2 : String),
        aget? env.read_attribute "WAVELENGTH" = some w →
        aget? env.read_attribute "FILE_TYPE" = some (.s "timeseries") →
        inps.dset = some dset → pySplit dset "_" = [a, b] → inps.ref_yx = none →
        inps2.dset = some dset2 → pySplit dset2 "_" = [b, a] → inps2.ref_yx = none →
        read_data piK env inps = .ok (data, x1, y1) →
        read_data piK env inps2 = .ok (data2, x2, y2) →
        ∀ i j, data i j = -(data2 i j)) ∧
    (∀ (piK : K) (env : Env K) (inps inps2 : Inps) (w : AVal)
        (dset dset2 sfx sfx2 a b : String)
        (data data2 : Raster K) (x1 x2 : Attr) (y1 y2 : String),
        aget? env.read_attribute "WAVELENGTH" = some w →
        aget? env.read_attribute "FILE_TYPE" = some (.s "HDFEOS") →
        inps.dset = some dset → pySplit dset "-" = ["displacement", sfx] →
        strContains dset "displacement" = true → pySplit sfx "_" = [a, b] →
        inps.ref_yx = none →
        inps2.dset = some dset2 → pySplit dset2 "-" = ["displacement", sfx2] →
        strContains dset2 "displacement" = true → pySplit sfx2 "_" = [b, a] →
        inps2.ref_yx = none →
        read_data piK env inps = .ok (data, x1, y1) →
        read_data piK env inps2 = .ok (data2, x2, y2) →
        ∀ i j, data i j = -(data2 i j)) := by
  constructor
  · intro piK env inps inps2 w dset dset2 a b data data2 x1 x2 y1 y2
      hw hk hd hs href hd2 hs2 href2 hok hok2
    have hk1 : aget? (refOverride env.read_attribute inps.ref_yx) "FILE_TYPE" =
        some (.s "timeseries") := by
      rw [href]
      exact hk
    have hk2 : aget? (refOverride env.read_attribute inps2.ref_yx) "FILE_TYPE" =
        some (.s "timeseries") := by
      rw [href2]
      exact hk
    rw [read_data_eq_timeseries piK env inps w hw hk1,
      readDataTimeseries_pair env _ _ inps dset a b hd hs, stampProcessor_ok] at hok
    rw [read_data_eq_timeseries piK env inps2 w hw hk2,
      readDataTimeseries_pair env _ _ inps2 dset2 b a hd2 hs2, stampProcessor_ok] at hok2
    simp only [Except.ok.injEq, Prod.mk.injEq] at hok hok2
    obtain ⟨h1, -, -⟩ := hok
    obtain ⟨h2, -, -⟩ := hok2
    subst h1
    subst h2
    intro i j
    rw [href, href2]
    show (env.read (some (yyyymmdd b)) i j - env.read (some (yyyymmdd a)) i j) *
        (-4 * piK / env.float w.str) =
      -((env.read (some (yyyymmdd a)) i j - env.read (some (yyyymmdd b)) i j) *
        (-4 * piK / env.float w.str))
    ring
  · intro piK env inps inps2 w dset dset2 sfx sfx2 a b data data2 x1 x2 y1 y2
      hw hk hd hs hc hsx href hd2 hs2 hc2 hsx2 href2 hok hok2
    have hk1 : aget? (refOverride env.read_attribute inps.ref_yx) "FILE_TYPE" =
        some (.s "HDFEOS") := by
      rw [href]
      exact hk
    have hk2 : aget? (refOverride env.read_attribute inps2.ref_yx) "FILE_TYPE" =
        some (.s "HDFEOS") := by
      rw [href2]
      exact hk
    rw [read_data_eq_HDFEOS piK env inps w hw hk1,
      readDataHDFEOS_disp_pair env _ _ inps dset sfx a b hd hs hc hsx,
      stampProcessor_ok] at hok
    rw [read_data_eq_HDFEOS piK env inps2 w hw hk2,
      readDataHDFEOS_disp_pair env _ _ inps2 dset2 sfx2 b a hd2 hs2 hc2 hsx2,
      stampProcessor_ok] at hok2
    simp only [Except.ok.injEq, Prod.mk.injEq] at hok hok2
    obtain ⟨h1, -, -⟩ := hok
    obtain ⟨h2, -, -⟩ := hok2
    subst h1
    subst h2
    intro i j
    rw [href, href2]
    show (env.read (some (env.check_dataset_input env.slice_list
          ("displacement" ++ "-" ++ yyyymmdd a))) i j -
        env.read (some (env.check_dataset_input env.slice_list
          ("displacement" ++ "-" ++ yyyymmdd b))) i j) * (-4 * piK / env.float w.str) =
      -((env.read (some (env.check_dataset_input env.slice_list
          ("displacement" ++ "-" ++ yyyymmdd b))) i j -
        env.read (some (env.check_dataset_input env.slice_list
          ("displacement" ++ "-" ++ yyyymmdd a))) i j) * (-4 * piK / env.float w.str))
    ring

/-- The C7 witness request with the epochs swapped. -/
def C7wInps2 : Inps := { file := "timeseries.h5", dset := some "20050601_20040101" }

/-- C7 witness: the two concrete timeseries runs with swapped epochs give
opposite values at pixel (0, 0). -/
theorem C7_differencing_antisymmetry_witness :
    (read_data (1 : ℚ) C1wEnv C1wInps).map (fun r => r.1 0 0) =
      (read_data (1 : ℚ) C1wEnv C7wInps2).map (fun r => -(r.1 0 0)) := by
  rcases h : read_data (1 : ℚ) C1wEnv C1wInps with e | ⟨d, a, o⟩
  · have hok : (read_data (1 : ℚ) C1wEnv C1wInps).isOk = true := by rfl
    rw [h] at hok
    simp [Except.isOk, Except.toBool] at hok
  · rcases h2 : read_data (1 : ℚ) C1wEnv C7wInps2 with e2 | ⟨d2, a2, o2⟩
    · have hok : (read_data (1 : ℚ) C1wEnv C7wInps2).isOk = true := by rfl
      rw [h2] at hok
      simp [Except.isOk, Except.toBool] at hok
    · have h3 := C7_differencing_antisymmetry.1 1 C1wEnv C1wInps C7wInps2 (.s "0.0562")
        "20040101_20050601" "20050601_20040101" "20040101" "20050601" d d2 a a2 o o2
        rfl rfl rfl (by decide) rfl rfl (by decide) rfl h h2
      show Except.ok (d 0 0) = Except.ok (-(d2 0 0))
      rw [h3 0 0]

/-! Claim C8: missing sub-product token. -/

/-- C8: when no sub-product token is supplied, `ifgramStack` and `HDFEOS`
inputs fail during command-line parsing — before any raster read, so the
whole pipeline fails with the same error for every possible reader — while
a timeseries input continues with the most recent stored epoch. -/
theorem C8_missing_dset_error {K : Type} [Field K] :
    (∀ (piK : K) (env : Env K) (inps : Inps) (kv : AVal),
        dsetFalsy inps.dset = true →
        aget? env.read_attribute "FILE_TYPE" = some kv →
        (kv.str = "ifgramStack" ∨ kv.str = "HDFEOS") →
        cmd_line_parse env inps =
          .error ("Exception: NO input dataset! Required for " ++ kv.str ++ " file") ∧
        main_core piK env inps =
          .error ("Exception: NO input dataset! Required for " ++ kv.str ++ " file")) ∧
    (∀ (env : Env K) (inps : Inps) (kv : AVal) (d : String),
        dsetFalsy inps.dset = true →
        aget? env.read_attribute "FILE_TYPE" = some kv →
        kv.str = "timeseries" →
        env.ts_date_list.getLast? = some d →
        cmd_line_parse env inps = .ok { inps with dset := some d }) := by
  constructor
  · intro piK env inps kv hds hk hor
    have hcmd : cmd_line_parse env inps =
        .error ("Exception: NO input dataset! Required for " ++ kv.str ++ " file") := by
      rw [cmd_line_parse, if_pos hds]
      simp only [hk]
      rw [if_pos hor]
    refine ⟨hcmd, ?_⟩
    rw [main_core, hcmd]
  · intro env inps kv d hds hk hkv hlast
    rw [cmd_line_parse, if_pos hds]
    simp [hk, hkv, hlast]

/-- Concrete environment for the C8 witness (an `HDFEOS` container and a
timeseries container sharing shape). -/
def C8wEnvH : Env ℚ where
  read := fun _ _ _ => 0
  read_attribute := [("WAVELENGTH", .s "1"), ("FILE_TYPE", .s "HDFEOS")]
  float := fun _ => 1
  ts_date_list := []
  he_date_list := []
  slice_list := []
  check_dataset_input := fun _ s => s

/-- Concrete timeseries environment for the C8 witness. -/
def C8wEnvT : Env ℚ where
  read := fun _ _ _ => 0
  read_attribute := [("WAVELENGTH", .s "1"), ("FILE_TYPE", .s "timeseries")]
  float := fun _ => 1
  ts_date_list := ["20040101", "20050601"]
  he_date_list := []
  slice_list := []
  check_dataset_input := fun _ s => s

/-- C8 witness: a dataset-less request on an HDFEOS container fails during
parsing (and so does the whole pipeline), and on a timeseries container the
last stored date is substituted. -/
theorem C8_missing_dset_error_witness :
    cmd_line_parse C8wEnvH { file := "S1.he5" } =
      .error "Exception: NO input dataset! Required for HDFEOS file" ∧
    main_core (1 : ℚ) C8wEnvH { file := "S1.he5" } =
      .error "Exception: NO input dataset! Required for HDFEOS file" ∧
    cmd_line_parse C8wEnvT { file := "ts.h5" } =
      .ok { file := "ts.h5", dset := some "20050601" } := by
  obtain ⟨h1, h2⟩ := C8_missing_dset_error.1 (1 : ℚ) C8wEnvH { file := "S1.he5" }
    (.s "HDFEOS") rfl rfl (by decide)
  exact ⟨h1, h2,
    C8_missing_dset_error.2 C8wEnvT { file := "ts.h5" } (.s "timeseries")
      "20050601" rfl rfl rfl rfl⟩

/-! Claim C9: generic branches re-read the whole file. -/

/-- C9: in the generic branch, a coherence-typed input, a mask input, and a
geocoded geometry input with token `height` all hand the writer the raster
re-read with no dataset name, discarding the slice first read for the
caller's token — so the token has no effect on the returned data. -/
theorem C9_generic_reread_ignores_dset {K : Type} [Field K] :
    (∀ (piK : K) (env : Env K) (inps : Inps) (w : AVal) (k : String)
        (data : Raster K) (atrO : Attr) (out : String),
        aget? env.read_attribute "WAVELENGTH" = some w →
        aget? env.read_attribute "FILE_TYPE" = some (.s k) →
        k ≠ "velocity" → k ≠ "timeseries" → k ≠ "HDFEOS" → k ≠ "ifgramStack" →
        strContains (pyLower k) "coherence" = true →
        read_data piK env inps = .ok (data, atrO, out) →
        ∀ i j, data i j = env.read none i j) ∧
    (∀ (piK : K) (env : Env K) (inps : Inps) (w : AVal)
        (data : Raster K) (atrO : Attr) (out : String),
        aget? env.read_attribute "WAVELENGTH" = some w →
        aget? env.read_attribute "FILE_TYPE" = some (.s "mask") →
        read_data piK env inps = .ok (data, atrO, out) →
        ∀ i j, data i j = env.read none i j) ∧
    (∀ (piK : K) (env : Env K) (inps : Inps) (w : AVal)
        (data : Raster K) (atrO : Attr) (out : String),
        aget? env.read_attribute "WAVELENGTH" = some w →
        aget? env.read_attribute "FILE_TYPE" = some (.s "geometry") →
        inps.dset = some "height" →
        amem env.read_attribute "Y_FIRST" = true →
        read_data piK env inps = .ok (data, atrO, out) →
        ∀ i j, data i j = env.read none i j) := by
  refine ⟨?_, ?_, ?_⟩
  · intro piK env inps w k data atrO out hw hk h1 h2 h3 h4 hcoh hok
    have hk2 : aget? (refOverride env.read_attribute inps.ref_yx) "FILE_TYPE" =
        some (.s k) := by
      rw [aget?_refOverride_ne _ _ _ (by decide) (by decide)]
      exact hk
    rw [read_data_eq_generic piK env inps w k hw hk2 h1 h2 h3 h4,
      readDataGeneric_coherence env k _ inps hcoh, stampProcessor_ok] at hok
    simp only [Except.ok.injEq, Prod.mk.injEq] at hok
    obtain ⟨hd1, -, -⟩ := hok
    subst hd1
    intro i j
    rfl
  · intro piK env inps w data atrO out hw hk hok
    have hk2 : aget? (refOverride env.read_attribute inps.ref_yx) "FILE_TYPE" =
        some (.s "mask") := by
      rw [aget?_refOverride_ne _ _ _ (by decide) (by decide)]
      exact hk
    rw [read_data_eq_generic piK env inps w "mask" hw hk2 (by decide) (by decide)
      (by decide) (by decide), readDataGeneric_mask env _ inps, stampProcessor_ok] at hok
    simp only [Except.ok.injEq, Prod.mk.injEq] at hok
    obtain ⟨hd1, -, -⟩ := hok
    subst hd1
    intro i j
    rfl
  · intro piK env inps w data atrO out hw hk hd hy hok
    have hk2 : aget? (refOverride env.read_attribute inps.ref_yx) "FILE_TYPE" =
        some (.s "geometry") := by
      rw [aget?_refOverride_ne _ _ _ (by decide) (by decide)]
      exact hk
    have hy2 : amem (refOverride env.read_attribute inps.ref_yx) "Y_FIRST" = true := by
      rw [amem, aget?_refOverride_ne _ _ _ (by decide) (by decide)]
      exact hy
    rw [read_data_eq_generic piK env inps w "geometry" hw hk2 (by decide) (by decide)
      (by decide) (by decide),
      readDataGeneric_height_geocoded env "geometry" _ inps rfl hd hy2,
      stampProcessor_ok] at hok
    simp only [Except.ok.injEq, Prod.mk.injEq] at hok
    obtain ⟨hd1, -, -⟩ := hok
    subst hd1
    intro i j
    rfl

/-- Concrete coherence-typed container for the C9 witness: the full-file
read returns 7, while the slice named by the token holds 3. -/
def C9wEnv : Env ℚ where
  read := fun ds _ _ => if ds = none then 7 else 3
  read_attribute := [("WAVELENGTH", .s "1"), ("FILE_TYPE", .s "temporalCoherence")]
  float := fun _ => 1
  ts_date_list := []
  he_date_list := []
  slice_list := []
  check_dataset_input := fun _ s => s

/-- The C9 witness request: a (discarded) sub-product token is supplied. -/
def C9wInps : Inps := { file := "temporalCoherence.h5", dset := some "someSlice" }

/-- C9 witness: the returned raster holds the full-file value 7, not the
token slice value 3. -/
theorem C9_generic_reread_ignores_dset_witness :
    (read_data (1 : ℚ) C9wEnv C9wInps).map (fun r => r.1 0 0) = .ok 7 := by
  rcases h : read_data (1 : ℚ) C9wEnv C9wInps with e | ⟨d, a, o⟩
  · have hok : (read_data (1 : ℚ) C9wEnv C9wInps).isOk = true := by rfl
    rw [h] at hok
    simp [Except.isOk, Except.toBool] at hok
  · have h1 := C9_generic_reread_ignores_dset.1 1 C9wEnv C9wInps (.s "1")
      "temporalCoherence" d a o rfl rfl (by decide) (by decide) (by decide) (by decide)
      (by decide) h
    show Except.ok (d 0 0) = _
    rw [h1 0 0]
    rfl

/-! Claim C4: derivation of DATE12 for multi-slice requests. -/

/-- C4 (amended): for a multi-slice `displacement-epoch1_epoch2` request the
derived `DATE12` joins the 6-digit forms of the requested epochs; for every
other multi-slice request the epochs in the request are ignored and
`DATE12` joins the 6-digit forms of the container's first and last stored
dates. -/
theorem C4_date12_derivation {K : Type} [Field K] :
    (∀ (piK : K) (env : Env K) (inps : Inps) (w : AVal) (dset sfx a b : String)
        (data : Raster K) (atrO : Attr) (out : String),
        aget? env.read_attribute "WAVELENGTH" = some w →
        aget? env.read_attribute "FILE_TYPE" = some (.s "HDFEOS") →
        inps.dset = some dset →
        pySplit dset "-" = ["displacement", sfx] →
        strContains dset "displacement" = true →
        pySplit sfx "_" = [a, b] →
        read_data piK env inps = .ok (data, atrO, out) →
        aget? atrO "DATE12" =
          some (.s (sub6 (yyyymmdd a) ++ "-" ++ sub6 (yyyymmdd b)))) ∧
    (∀ (piK : K) (env : Env K) (inps : Inps) (w : AVal) (dset d : String)
        (ds : List String) (data : Raster K) (atrO : Attr) (out : String),
        aget? env.read_attribute "WAVELENGTH" = some w →
        aget? env.read_attribute "FILE_TYPE" = some (.s "HDFEOS") →
        inps.dset = some dset →
        ¬ (pySplit dset "-").headD "" = "displacement" →
        env.he_date_list = d :: ds →
        read_data piK env inps = .ok (data, atrO, out) →
        aget? atrO "DATE12" = some (.s (sub6 d ++ "-" ++ sub6 (ds.getLastD d)))) := by
  constructor
  · intro piK env inps w dset sfx a b data atrO out hw hk hd hs hc hsx hok
    have hk2 : aget? (refOverride env.read_attribute inps.ref_yx) "FILE_TYPE" =
        some (.s "HDFEOS") := by
      rw [aget?_refOverride_ne _ _ _ (by decide) (by decide)]
      exact hk
    rw [read_data_eq_HDFEOS piK env inps w hw hk2,
      readDataHDFEOS_disp_pair env _ _ inps dset sfx a b hd hs hc hsx,
      stampProcessor_ok] at hok
    simp only [Except.ok.injEq, Prod.mk.injEq] at hok
    obtain ⟨-, h2, -⟩ := hok
    subst h2
    rw [aget?_aset_ne _ _ _ _ (by decide), aget?_aset_ne _ _ _ _ (by decide),
      aget?_aset_ne _ _ _ _ (by decide), aget?_aset_self]
  · intro piK env inps w dset d ds data atrO out hw hk hd hn hlist hok
    have hk2 : aget? (refOverride env.read_attribute inps.ref_yx) "FILE_TYPE" =
        some (.s "HDFEOS") := by
      rw [aget?_refOverride_ne _ _ _ (by decide) (by decide)]
      exact hk
    rw [read_data_eq_HDFEOS piK env inps w hw hk2] at hok
    rcases hX : readDataHDFEOS env (-4 * piK / env.float w.str)
        (refOverride env.read_attribute inps.ref_yx) inps with e | ⟨d2, a2, o2⟩
    · rw [hX] at hok
      cases hok
    · rw [hX, stampProcessor_ok] at hok
      simp only [Except.ok.injEq, Prod.mk.injEq] at hok
      obtain ⟨-, h2, -⟩ := hok
      subst h2
      rw [aget?_aset_ne _ _ _ _ (by decide)]
      exact readDataHDFEOS_nondisp_date12 env _ _ inps dset d ds hd hn hlist d2 a2 o2 hX

/-- Concrete HDFEOS container for the C4 counterexample: stored dates
20050101 and 20060101, requested epochs 20100101 and 20100202. -/
def C4cEnv : Env ℚ where
  read := fun _ _ _ => 0
  read_attribute := [("WAVELENGTH", .s "1"), ("FILE_TYPE", .s "HDFEOS")]
  float := fun _ => 1
  ts_date_list := []
  he_date_list := ["20050101", "20060101"]
  slice_list := []
  check_dataset_input := fun _ s => s

/-- The C4 counterexample request: `coherence-20100101_20100202`. -/
def C4cInps : Inps := { file := "S1.he5", dset := some "coherence-20100101_20100202" }

/-- C4 counterexample: for the non-displacement request
`coherence-20100101_20100202` the derived `DATE12` is built from the
container's stored dates (`050101-060101`), not from the requested epochs
(`100101-100202`). -/
theorem C4_date12_counterexample :
    (read_data (1 : ℚ) C4cEnv C4cInps).map (fun r => aget? r.2.1 "DATE12") =
      .ok (some (.s "050101-060101")) ∧
    sub6 (yyyymmdd "20100101") ++ "-" ++ sub6 (yyyymmdd "20100202") = "100101-100202" ∧
    some (AVal.s "050101-060101") ≠ some (AVal.s "100101-100202") := by
  refine ⟨by rfl, by rfl, by decide⟩

/-- Concrete HDFEOS displacement container for the C4 witness. -/
def C4wEnv : Env ℚ where
  read := fun _ _ _ => 0
  read_attribute := [("WAVELENGTH", .s "1"), ("FILE_TYPE", .s "HDFEOS")]
  float := fun _ => 1
  ts_date_list := []
  he_date_list := []
  slice_list := []
  check_dataset_input := fun _ s => s

/-- The C4 witness request: `displacement-20100101_20100202`. -/
def C4wInps : Inps := { file := "S1.he5", dset := some "displacement-20100101_20100202" }

/-- C4 witness: a displacement pair request derives
`DATE12 = 100101-100202` from the requested epochs. -/
theorem C4_date12_derivation_witness :
    (read_data (1 : ℚ) C4wEnv C4wInps).map (fun r => aget? r.2.1 "DATE12") =
      .ok (some (.s "100101-100202")) := by
  rcases h : read_data (1 : ℚ) C4wEnv C4wInps with e | ⟨d, a, o⟩
  · have hok : (read_data (1 : ℚ) C4wEnv C4wInps).isOk = true := by rfl
    rw [h] at hok
    simp [Except.isOk, Except.toBool] at hok
  · have h1 := C4_date12_derivation.1 1 C4wEnv C4wInps (.s "1")
      "displacement-20100101_20100202" "20100101_20100202" "20100101" "20100202"
      d a o rfl rfl rfl (by decide) (by decide) (by decide) h
    show Except.ok (aget? a "DATE12") = _
    rw [h1]
    rfl

/-! Claim C2: reference-pixel handling in the interferogram-stack branch. -/

/-- C2 (amended): the unwrapPhase zeroing uses the reference pixel recorded
in the attribute mapping as it stands after the caller override.  With no
caller override the raster is zeroed at the stored `REF_Y`/`REF_X` pixel;
with a caller override the raster is zeroed at the caller pixel — no
zeroing at the stored pixel ever happens — and the caller pixel replaces
the recorded `REF_Y`/`REF_X` attributes. -/
theorem C2_reference_pixel_override {K : Type} [Field K] :
    (∀ (piK : K) (env : Env K) (inps : Inps) (w : AVal)
        (dset dname d12 d1 d2 : String) (ry rx : Nat)
        (data : Raster K) (atrO : Attr) (out : String),
        aget? env.read_attribute "WAVELENGTH" = some w →
        aget? env.read_attribute "FILE_TYPE" = some (.s "ifgramStack") →
        inps.dset = some dset →
        pySplit dset "-" = [dname, d12] →
        pySplit d12 "_" = [d1, d2] →
        pyStartsWith dname "unwrapPhase" = true →
        inps.ref_yx = none →
        (aget? env.read_attribute "REF_Y").bind AVal.toInt? = some ry →
        (aget? env.read_attribute "REF_X").bind AVal.toInt? = some rx →
        read_data piK env inps = .ok (data, atrO, out) →
        ∀ i j, data i j = env.read (some dset) i j - env.read (some dset) ry rx) ∧
    (∀ (piK : K) (env : Env K) (inps : Inps) (w : AVal)
        (dset dname d12 d1 d2 : String) (y x : Nat)
        (data : Raster K) (atrO : Attr) (out : String),
        aget? env.read_attribute "WAVELENGTH" = some w →
        aget? env.read_attribute "FILE_TYPE" = some (.s "ifgramStack") →
        inps.dset = some dset →
        pySplit dset "-" = [dname, d12] →
        pySplit d12 "_" = [d1, d2] →
        pyStartsWith dname "unwrapPhase" = true →
        inps.ref_yx = some (y, x) →
        read_data piK env inps = .ok (data, atrO, out) →
        (∀ i j, data i j = env.read (some dset) i j - env.read (some dset) y x) ∧
        aget? atrO "REF_Y" = some (.n y) ∧ aget? atrO "REF_X" = some (.n x)) := by
  constructor
  · intro piK env inps w dset dname d12 d1 d2 ry rx data atrO out
      hw hk hd h1 h2 hu href hy hx hok
    have hk2 : aget? (refOverride env.read_attribute inps.ref_yx) "FILE_TYPE" =
        some (.s "ifgramStack") := by
      rw [href]
      exact hk
    rw [read_data_eq_ifgramStack piK env inps w hw hk2, href] at hok
    rw [readDataIfgramStack_unwrap env (refOverride env.read_attribute none) inps
      dset dname d12 d1 d2 ry rx hd h1 h2 hu (by exact hy) (by exact hx),
      stampProcessor_ok] at hok
    simp only [Except.ok.injEq, Prod.mk.injEq] at hok
    obtain ⟨hd1, -, -⟩ := hok
    subst hd1
    intro i j
    rfl
  · intro piK env inps w dset dname d12 d1 d2 y x data atrO out
      hw hk hd h1 h2 hu href hok
    have hk2 : aget? (refOverride env.read_attribute inps.ref_yx) "FILE_TYPE" =
        some (.s "ifgramStack") := by
      rw [aget?_refOverride_ne _ _ _ (by decide) (by decide)]
      exact hk
    have hy : (aget? (refOverride env.read_attribute (some (y, x))) "REF_Y").bind
        AVal.toInt? = some y := by
      rw [refOverride, aget?_aset_ne _ _ _ _ (by decide), aget?_aset_self]
      rfl
    have hx : (aget? (refOverride env.read_attribute (some (y, x))) "REF_X").bind
        AVal.toInt? = some x := by
      rw [refOverride, aget?_aset_self]
      rfl
    rw [read_data_eq_ifgramStack piK env inps w hw hk2, href] at hok
    rw [readDataIfgramStack_unwrap env (refOverride env.read_attribute (some (y, x)))
      inps dset dname d12 d1 d2 y x hd h1 h2 hu hy hx, stampProcessor_ok] at hok
    simp only [Except.ok.injEq, Prod.mk.injEq] at hok
    obtain ⟨hd1, hd2, -⟩ := hok
    subst hd1
    subst hd2
    refine ⟨fun i j => rfl, ?_, ?_⟩
    · rw [aget?_aset_ne _ _ _ _ (by decide), aget?_aset_ne _ _ _ _ (by decide),
        aget?_aset_ne _ _ _ _ (by decide), aget?_aset_ne _ _ _ _ (by decide),
        aget?_aset_ne _ _ _ _ (by decide), refOverride,
        aget?_aset_ne _ _ _ _ (by decide), aget?_aset_self]
    · rw [aget?_aset_ne _ _ _ _ (by decide), aget?_aset_ne _ _ _ _ (by decide),
        aget?_aset_ne _ _ _ _ (by decide), aget?_aset_ne _ _ _ _ (by decide),
        aget?_aset_ne _ _ _ _ (by decide), refOverride, aget?_aset_self]

/-- Concrete interferogram stack for the C2 counterexample: a stored
reference pixel (0, 0) is recorded; the raster holds 5 at (0, 0) and 7 at
(1, 1). -/
def C2cEnv : Env ℚ where
  read := fun _ i j => if i = 0 ∧ j = 0 then 5 else if i = 1 ∧ j = 1 then 7 else 0
  read_attribute := [("WAVELENGTH", .s "1"), ("FILE_TYPE", .s "ifgramStack"),
                     ("REF_Y", .s "0"), ("REF_X", .s "0")]
  float := fun _ => 1
  ts_date_list := []
  he_date_list := []
  slice_list := []
  check_dataset_input := fun _ s => s

/-- The C2 counterexample request: unwrapPhase pair with caller override
`--ref-yx 1 1`. -/
def C2cInps : Inps :=
  { file := "ifgramStack.h5", dset := some "unwrapPhase-20091225_20100723",
    ref_yx := some (1, 1) }

/-- C2 counterexample: with a stored reference (0, 0) and a caller override
(1, 1), the returned raster is `-2` at the stored pixel and `0` at the
caller pixel — so the raster was never zeroed at the stored pixel; the
zeroing used the overridden reference. -/
theorem C2_stored_pixel_counterexample :
    (read_data (1 : ℚ) C2cEnv C2cInps).map (fun r => (r.1 0 0, r.1 1 1)) =
      .ok ((-2 : ℚ), (0 : ℚ)) ∧
    ((-2 : ℚ) ≠ 0) := by
  refine ⟨?_, by norm_num⟩
  rw [read_data_eq_ifgramStack 1 C2cEnv C2cInps (.s "1") rfl rfl,
    readDataIfgramStack_unwrap C2cEnv
      (refOverride C2cEnv.read_attribute C2cInps.ref_yx) C2cInps
      "unwrapPhase-20091225_20100723"
      "unwrapPhase" "20091225_20100723" "20091225" "20100723" 1 1
      rfl (by decide) (by decide) (by decide) rfl rfl,
    stampProcessor_ok]
  show Except.ok (((5 : ℚ) - 7, (7 : ℚ) - 7) : ℚ × ℚ) = _
  norm_num

/-- The C2 witness request: unwrapPhase pair with no caller override. -/
def C2wInps : Inps :=
  { file := "ifgramStack.h5", dset := some "unwrapPhase-20091225_20100723" }

/-- C2 witness: with only the stored reference (0, 0), the raster is zeroed
at the stored pixel: value 0 there and 7 − 5 = 2 at (1, 1). -/
theorem C2_reference_pixel_override_witness :
    (read_data (1 : ℚ) C2cEnv C2wInps).map (fun r => (r.1 0 0, r.1 1 1)) =
      .ok ((0 : ℚ), (2 : ℚ)) := by
  rcases h : read_data (1 : ℚ) C2cEnv C2wInps with e | ⟨d, a, o⟩
  · have hok : (read_data (1 : ℚ) C2cEnv C2wInps).isOk = true := by rfl
    rw [h] at hok
    simp [Except.isOk, Except.toBool] at hok
  · have h1 := C2_reference_pixel_override.1 1 C2cEnv C2wInps (.s "1")
      "unwrapPhase-20091225_20100723" "unwrapPhase" "20091225_20100723"
      "20091225" "20100723" 0 0 d a o rfl rfl rfl (by decide) (by decide) (by decide)
      rfl rfl rfl h
    show Except.ok (d 0 0, d 1 1) = _
    rw [h1 0 0, h1 1 1]
    show Except.ok (((5 : ℚ) - 5, (7 : ℚ) - 5) : ℚ × ℚ) = _
    norm_num

/-! Claim C10: frame effect of the caller reference override. -/

theorem resultFrame_stampProcessor {r1 r2 : Except String (Raster K × Attr × String)}
    (h : resultFrame r1 r2) :
    resultFrame (stampProcessor r1) (stampProcessor r2) := by
  rcases r1 with e | ⟨d, a, o⟩ <;> rcases r2 with e2 | ⟨d2, a2, o2⟩
  · exact h
  · exact h.elim
  · exact h.elim
  · obtain ⟨h1, h2, h3⟩ := h
    exact ⟨h1, h2.aset _ _, h3⟩

/-- C10 (amended): the caller reference pixel changes the produced raster in
the velocity, timeseries, multi-slice displacement and interferogram-stack
unwrapPhase branches (in the last one by replacing the recorded zeroing
pixel); in every other branch — multi-slice non-displacement requests,
interferogram-stack non-unwrapPhase requests, and the whole generic branch —
it leaves the raster and output name unchanged and changes no attribute
entry other than `REF_Y`/`REF_X`. -/
theorem C10_reference_override_frame {K : Type} [Field K] :
    (∀ (piK : K) (env : Env K) (inps : Inps) (w : AVal) (dset : String),
        aget? env.read_attribute "WAVELENGTH" = some w →
        aget? env.read_attribute "FILE_TYPE" = some (.s "HDFEOS") →
        inps.dset = some dset →
        strContains dset "displacement" = false →
        resultFrame (read_data piK env inps)
          (read_data piK env { inps with ref_yx := none })) ∧
    (∀ (piK : K) (env : Env K) (inps : Inps) (w : AVal) (dset dname d12 : String),
        aget? env.read_attribute "WAVELENGTH" = some w →
        aget? env.read_attribute "FILE_TYPE" = some (.s "ifgramStack") →
        inps.dset = some dset →
        pySplit dset "-" = [dname, d12] →
        pyStartsWith dname "unwrapPhase" = false →
        resultFrame (read_data piK env inps)
          (read_data piK env { inps with ref_yx := none })) ∧
    (∀ (piK : K) (env : Env K) (inps : Inps) (w : AVal) (k : String),
        aget? env.read_attribute "WAVELENGTH" = some w →
        aget? env.read_attribute "FILE_TYPE" = some (.s k) →
        k ≠ "velocity" → k ≠ "timeseries" → k ≠ "HDFEOS" → k ≠ "ifgramStack" →
        resultFrame (read_data piK env inps)
          (read_data piK env { inps with ref_yx := none })) := by
  refine ⟨?_, ?_, ?_⟩
  · intro piK env inps w dset hw hk hd hnd
    have hk1 : aget? (refOverride env.read_attribute inps.ref_yx) "FILE_TYPE" =
        some (.s "HDFEOS") := by
      rw [aget?_refOverride_ne _ _ _ (by decide) (by decide)]
      exact hk
    rw [read_data_eq_HDFEOS piK env inps w hw hk1,
      read_data_eq_HDFEOS piK env { inps with ref_yx := none } w hw (by exact hk)]
    exact resultFrame_stampProcessor
      (readDataHDFEOS_frame env _ (refOverride env.read_attribute inps.ref_yx)
        env.read_attribute inps none dset (atrEquiv_refOverride _ _) hd hnd)
  · intro piK env inps w dset dname d12 hw hk hd hs hnu
    have hk1 : aget? (refOverride env.read_attribute inps.ref_yx) "FILE_TYPE" =
        some (.s "ifgramStack") := by
      rw [aget?_refOverride_ne _ _ _ (by decide) (by decide)]
      exact hk
    rw [read_data_eq_ifgramStack piK env inps w hw hk1,
      read_data_eq_ifgramStack piK env { inps with ref_yx := none } w hw (by exact hk)]
    exact resultFrame_stampProcessor
      (readDataIfgramStack_frame env (refOverride env.read_attribute inps.ref_yx)
        env.read_attribute inps none dset dname d12 (atrEquiv_refOverride _ _)
        hd hs hnu)
  · intro piK env inps w k hw hk h1 h2 h3 h4
    have hk1 : aget? (refOverride env.read_attribute inps.ref_yx) "FILE_TYPE" =
        some (.s k) := by
      rw [aget?_refOverride_ne _ _ _ (by decide) (by decide)]
      exact hk
    rw [read_data_eq_generic piK env inps w k hw hk1 h1 h2 h3 h4,
      read_data_eq_generic piK env { inps with ref_yx := none } w k hw (by exact hk)
        h1 h2 h3 h4]
    exact resultFrame_stampProcessor
      (readDataGeneric_frame env k (refOverride env.read_attribute inps.ref_yx)
        env.read_attribute inps none (atrEquiv_refOverride _ _))

/-- Concrete interferogram stack for the C10 counterexample: no stored
reference pixel. -/
def C10cEnv : Env ℚ where
  read := fun _ i j => if i = 0 ∧ j = 0 then 5 else if i = 1 ∧ j = 1 then 7 else 0
  read_attribute := [("WAVELENGTH", .s "1"), ("FILE_TYPE", .s "ifgramStack")]
  float := fun _ => 1
  ts_date_list := []
  he_date_list := []
  slice_list := []
  check_dataset_input := fun _ s => s

/-- The C10 counterexample request with the caller override. -/
def C10cInpsR : Inps :=
  { file := "ifgramStack.h5", dset := some "unwrapPhase-20091225_20100723",
    ref_yx := some (1, 1) }

/-- The C10 counterexample request without the caller override. -/
def C10cInpsN : Inps :=
  { file := "ifgramStack.h5", dset := some "unwrapPhase-20091225_20100723" }

/-- C10 counterexample: on an interferogram-stack unwrapPhase request with
no stored reference, supplying `--ref-yx 1 1` changes the raster value at
(0, 0) from 5 to −2 — the override does not merely set `REF_Y`/`REF_X` in
this branch. -/
theorem C10_unwrap_changes_counterexample :
    (read_data (1 : ℚ) C10cEnv C10cInpsR).map (fun r => r.1 0 0) = .ok (-2) ∧
    (read_data (1 : ℚ) C10cEnv C10cInpsN).map (fun r => r.1 0 0) = .ok 5 ∧
    ((-2 : ℚ) ≠ 5) := by
  refine ⟨?_, ?_, by norm_num⟩
  · rw [read_data_eq_ifgramStack 1 C10cEnv C10cInpsR (.s "1") rfl rfl,
      readDataIfgramStack_unwrap C10cEnv
        (refOverride C10cEnv.read_attribute C10cInpsR.ref_yx) C10cInpsR
        "unwrapPhase-20091225_20100723"
        "unwrapPhase" "20091225_20100723" "20091225" "20100723" 1 1
        rfl (by decide) (by decide) (by decide) rfl rfl,
      stampProcessor_ok]
    show Except.ok ((5 : ℚ) - 7) = _
    norm_num
  · rw [read_data_eq_ifgramStack 1 C10cEnv C10cInpsN (.s "1") rfl rfl,
      readDataIfgramStack_unwrap_noref C10cEnv
        (refOverride C10cEnv.read_attribute C10cInpsN.ref_yx) C10cInpsN
        "unwrapPhase-20091225_20100723" "unwrapPhase" "20091225_20100723"
        "20091225" "20100723" rfl (by decide) (by decide) (by decide) rfl,
      stampProcessor_ok]
    rfl

/-- Concrete mask container for the C10 witness. -/
def C10wEnv : Env ℚ where
  read := fun _ _ _ => 1
  read_attribute := [("WAVELENGTH", .s "1"), ("FILE_TYPE", .s "mask")]
  float := fun _ => 1
  ts_date_list := []
  he_date_list := []
  slice_list := []
  check_dataset_input := fun _ s => s

/-- The C10 witness request: a mask conversion with a caller override. -/
def C10wInps : Inps := { file := "mask.h5", ref_yx := some (2, 3) }

/-- C10 witness: on a generic (mask) conversion the caller override leaves
raster, output name and all non-reference attributes unchanged. -/
theorem C10_reference_override_frame_witness :
    resultFrame (read_data (1 : ℚ) C10wEnv C10wInps)
      (read_data (1 : ℚ) C10wEnv { C10wInps with ref_yx := none }) :=
  C10_reference_override_frame.2.2 1 C10wEnv C10wInps (.s "1") "mask" rfl rfl
    (by decide) (by decide) (by decide) (by decide)

end SaveRoipac
